import Mathlib

set_option maxRecDepth 2048

set_option maxHeartbeats 1600000

/-!
Shallow embedding of the rgb CPU core (src/cpu.rs, src/mmu.rs).

Machine integers are modelled as `Nat` with explicit truncation (`% 256`,
`% 65536`, or bit masks) exactly where the Rust code's fixed-width types
perform truncation.  Fallible operations (the dispatcher's fatal
unimplemented-opcode branches) return `Option`.
-/

namespace RGB

/-- Memory manager state (mmu.rs).  `boot_rom` has 0x100 meaningful entries,
`ram` 0x2000, `hram` 0x7f; they are modelled as total functions, indexed with
the same masked indices the source uses. -/
structure MMU where
  boot_rom : Nat → Nat
  ram : Nat → Nat
  hram : Nat → Nat

/-- `MMU::write` (mmu.rs lines 27-37): RAM and HRAM are writable; writes
anywhere else (including the boot ROM) are discarded. -/
def MMU.write (m : MMU) (addr val : Nat) : MMU :=
  if 0xc000 ≤ addr ∧ addr ≤ 0xdfff then
    { m with ram := fun i => if i = addr &&& 0x1fff then val else m.ram i }
  else if 0xff80 ≤ addr ∧ addr ≤ 0xfffe then
    { m with hram := fun i => if i = addr &&& 0x7f then val else m.hram i }
  else m

/-- `MMU::read` (mmu.rs lines 39-49): boot ROM, RAM, HRAM; everything else
reads 0xff. -/
def MMU.read (m : MMU) (addr : Nat) : Nat :=
  if addr ≤ 0x00ff then m.boot_rom addr
  else if 0xc000 ≤ addr ∧ addr ≤ 0xdfff then m.ram (addr &&& 0x1fff)
  else if 0xff80 ≤ addr ∧ addr ≤ 0xfffe then m.hram (addr &&& 0x7f)
  else 0xff

/-- `MMU::write16` (mmu.rs lines 51-54): low byte first, high byte at
`addr.wrapping_add(1)`. -/
def MMU.write16 (m : MMU) (addr val : Nat) : MMU :=
  (m.write addr (val &&& 0xff)).write ((addr + 1) % 65536) ((val >>> 8) &&& 0xff)

/-- `MMU::read16` (mmu.rs lines 56-61): little-endian compose. -/
def MMU.read16 (m : MMU) (addr : Nat) : Nat :=
  (m.read ((addr + 1) % 65536)) <<< 8 ||| m.read addr

/-- CPU state (cpu.rs lines 3-16). -/
structure CPU where
  mmu : MMU
  pc : Nat
  sp : Nat
  a : Nat
  f : Nat
  b : Nat
  c : Nat
  d : Nat
  e : Nat
  h : Nat
  l : Nat

/-- `CPU::new` (cpu.rs lines 19-33): PC starts at 0x100, everything else 0. -/
def CPU.new (m : MMU) : CPU :=
  { mmu := m, pc := 0x100, sp := 0, a := 0, f := 0,
    b := 0, c := 0, d := 0, e := 0, h := 0, l := 0 }

/-- Read AF register. -/
def CPU.af (s : CPU) : Nat := (s.a <<< 8) ||| s.f

/-- Write AF register (cpu.rs lines 41-44); note the source does NOT mask the
low nibble of F here. -/
def CPU.set_af (s : CPU) (val : Nat) : CPU :=
  { s with a := (val >>> 8) &&& 0xff, f := val &&& 0xff }

/-- Read BC register. -/
def CPU.bc (s : CPU) : Nat := (s.b <<< 8) ||| s.c

/-- Write BC register. -/
def CPU.set_bc (s : CPU) (val : Nat) : CPU :=
  { s with b := (val >>> 8) &&& 0xff, c := val &&& 0xff }

/-- Read DE register. -/
def CPU.de (s : CPU) : Nat := (s.d <<< 8) ||| s.e

/-- Write DE register. -/
def CPU.set_de (s : CPU) (val : Nat) : CPU :=
  { s with d := (val >>> 8) &&& 0xff, e := val &&& 0xff }

/-- Read HL register. -/
def CPU.hl (s : CPU) : Nat := (s.h <<< 8) ||| s.l

/-- Write HL register. -/
def CPU.set_hl (s : CPU) (val : Nat) : CPU :=
  { s with h := (val >>> 8) &&& 0xff, l := val &&& 0xff }

/-- `set_f_z` (cpu.rs line 79): `f & !(1<<7) | (z as u8) << 7`; on u8,
`!(1<<7) = 0x7f`. -/
def CPU.set_f_z (s : CPU) (z : Bool) : CPU :=
  { s with f := (s.f &&& 0x7f) ||| ((if z then 1 else 0) <<< 7) }

/-- `f_z` (cpu.rs line 83). -/
def CPU.f_z (s : CPU) : Bool := (s.f >>> 7) &&& 1 == 1

/-- `set_f_n` (cpu.rs line 87): on u8, `!(1<<6) = 0xbf`. -/
def CPU.set_f_n (s : CPU) (n : Bool) : CPU :=
  { s with f := (s.f &&& 0xbf) ||| ((if n then 1 else 0) <<< 6) }

/-- `f_n` (cpu.rs line 91). -/
def CPU.f_n (s : CPU) : Bool := (s.f >>> 6) &&& 1 == 1

/-- `set_f_h` (cpu.rs line 95): on u8, `!(1<<5) = 0xdf`. -/
def CPU.set_f_h (s : CPU) (h : Bool) : CPU :=
  { s with f := (s.f &&& 0xdf) ||| ((if h then 1 else 0) <<< 5) }

/-- `f_h` (cpu.rs line 99). -/
def CPU.f_h (s : CPU) : Bool := (s.f >>> 5) &&& 1 == 1

/-- `set_f_c` (cpu.rs line 103): on u8, `!(1<<4) = 0xef`. -/
def CPU.set_f_c (s : CPU) (c : Bool) : CPU :=
  { s with f := (s.f &&& 0xef) ||| ((if c then 1 else 0) <<< 4) }

/-- `f_c` (cpu.rs line 107). -/
def CPU.f_c (s : CPU) : Bool := (s.f >>> 4) &&& 1 == 1

/-- `write_r8` (cpu.rs lines 136-151).  Index 6 writes memory at HL.  The
source panics on an index above 7; every call site passes a 3-bit value, so
that arm is unreachable and modelled as the identity. -/
def CPU.write_r8 (s : CPU) (idx val : Nat) : CPU :=
  if idx = 0 then { s with b := val }
  else if idx = 1 then { s with c := val }
  else if idx = 2 then { s with d := val }
  else if idx = 3 then { s with e := val }
  else if idx = 4 then { s with h := val }
  else if idx = 5 then { s with l := val }
  else if idx = 6 then { s with mmu := s.mmu.write s.hl val }
  else if idx = 7 then { s with a := val }
  else s

/-- `read_r8` (cpu.rs lines 154-166).  Index 6 reads memory at HL.  The
out-of-range arm is unreachable (see `write_r8`) and modelled as 0. -/
def CPU.read_r8 (s : CPU) (idx : Nat) : Nat :=
  if idx = 0 then s.b
  else if idx = 1 then s.c
  else if idx = 2 then s.d
  else if idx = 3 then s.e
  else if idx = 4 then s.h
  else if idx = 5 then s.l
  else if idx = 6 then s.mmu.read s.hl
  else if idx = 7 then s.a
  else 0

/-- `write_r16` (cpu.rs lines 169-177).  The out-of-range arm is unreachable
(call sites pass 0-3) and modelled as the identity. -/
def CPU.write_r16 (s : CPU) (idx val : Nat) : CPU :=
  if idx = 0 then s.set_bc val
  else if idx = 1 then s.set_de val
  else if idx = 2 then s.set_hl val
  else if idx = 3 then { s with sp := val }
  else s

/-- `read_r16` (cpu.rs lines 180-188). -/
def CPU.read_r16 (s : CPU) (idx : Nat) : Nat :=
  if idx = 0 then s.bc
  else if idx = 1 then s.de
  else if idx = 2 then s.hl
  else if idx = 3 then s.sp
  else 0

/-- `read_d8` (cpu.rs lines 191-196): fetch byte at PC, advance PC. -/
def CPU.read_d8 (s : CPU) : Nat × CPU :=
  (s.mmu.read s.pc, { s with pc := (s.pc + 1) % 65536 })

/-- `read_d16` (cpu.rs lines 199-204): fetch 16-bit little-endian at PC,
advance PC by 2. -/
def CPU.read_d16 (s : CPU) : Nat × CPU :=
  (s.mmu.read16 s.pc, { s with pc := (s.pc + 2) % 65536 })

/-- Sign-extension of an 8-bit byte pattern to 16 bits
(Rust `as i8 as i16 as u16`). -/
def sx8_16 (b : Nat) : Nat := if b < 0x80 then b else b + 0xff00

/-- `nop` (cpu.rs line 207). -/
def CPU.nop (s : CPU) : CPU := s

/-- `ld_r16_d16` (cpu.rs line 212). -/
def CPU.ld_r16_d16 (s : CPU) (reg : Nat) : CPU :=
  let p := s.read_d16
  p.2.write_r16 reg p.1

/-- `ld_ind_d16_sp` (cpu.rs line 221). -/
def CPU.ld_ind_d16_sp (s : CPU) : CPU :=
  let p := s.read_d16
  { p.2 with mmu := p.2.mmu.write16 p.1 p.2.sp }

/-- `ld_sp_hl` (cpu.rs line 230). -/
def CPU.ld_sp_hl (s : CPU) : CPU := { s with sp := s.hl }

/-- `add_hl_r16` (cpu.rs line 237). -/
def CPU.add_hl_r16 (s : CPU) (reg : Nat) : CPU :=
  let hl := s.hl
  let val := s.read_r16 reg
  let half_carry := decide ((hl &&& 0xfff) + (val &&& 0xfff) > 0xfff)
  let res := (hl + val) % 65536
  let carry := decide (hl + val > 0xffff)
  (((s.set_hl res).set_f_n false).set_f_h half_carry).set_f_c carry

/-- `_add_sp` (cpu.rs line 252): takes the raw immediate byte; the Rust code
receives it as `i8` and widens with `as i16 as u16`, i.e. sign-extends.
Returns the sum (the caller stores it) together with the flag updates. -/
def CPU._add_sp (s : CPU) (d : Nat) : Nat × CPU :=
  let val := sx8_16 d
  let half_carry := decide ((s.sp &&& 0x0f) + (val &&& 0x0f) > 0x0f)
  let carry := decide ((s.sp &&& 0xff) + (val &&& 0xff) > 0xff)
  ((s.sp + val) % 65536,
   (((s.set_f_z false).set_f_n false).set_f_h half_carry).set_f_c carry)

/-- `add_sp_d8` (cpu.rs line 267). -/
def CPU.add_sp_d8 (s : CPU) : CPU :=
  let p := s.read_d8
  let q := p.2._add_sp p.1
  { q.2 with sp := q.1 }

/-- `ld_hl_sp_d8` (cpu.rs line 276). -/
def CPU.ld_hl_sp_d8 (s : CPU) : CPU :=
  let p := s.read_d8
  let q := p.2._add_sp p.1
  q.2.set_hl q.1

/-- `and_r8` (cpu.rs line 286). -/
def CPU.and_r8 (s : CPU) (reg : Nat) : CPU :=
  let res := s.a &&& s.read_r8 reg
  (((({ s with a := res }).set_f_z (res == 0)).set_f_n false).set_f_h true).set_f_c false

/-- `or_r8` (cpu.rs line 300). -/
def CPU.or_r8 (s : CPU) (reg : Nat) : CPU :=
  let res := s.a ||| s.read_r8 reg
  (((({ s with a := res }).set_f_z (res == 0)).set_f_n false).set_f_h false).set_f_c false

/-- `xor_r8` (cpu.rs line 314). -/
def CPU.xor_r8 (s : CPU) (reg : Nat) : CPU :=
  let res := s.a ^^^ s.read_r8 reg
  (((({ s with a := res }).set_f_z (res == 0)).set_f_n false).set_f_h false).set_f_c false

/-- `cp_r8` (cpu.rs line 328). -/
def CPU.cp_r8 (s : CPU) (reg : Nat) : CPU :=
  let a := s.a
  let val := s.read_r8 reg
  (((s.set_f_z (a == val)).set_f_n true).set_f_h
    (decide (a &&& 0x0f < val &&& 0x0f))).set_f_c (decide (a < val))

/-- `daa` (cpu.rs lines 341-367). -/
def CPU.daa (s : CPU) : CPU :=
  if !s.f_n then
    let p1 : Nat × CPU :=
      if s.f_c || decide (s.a > 0x99) then ((s.a + 0x60) % 256, s.set_f_c true)
      else (s.a, s)
    let a2 := if p1.2.f_h || decide (p1.1 &&& 0x0f > 0x09) then (p1.1 + 0x06) % 256 else p1.1
    (({ p1.2 with a := a2 }).set_f_z (a2 == 0)).set_f_h false
  else
    let a1 := if s.f_c then (s.a + 256 - 0x60) % 256 else s.a
    let a2 := if s.f_h then (a1 + 256 - 0x06) % 256 else a1
    (({ s with a := a2 }).set_f_z (a2 == 0)).set_f_h false

/-- `cpl` (cpu.rs line 370): `!a` on u8 is `0xff ^^^ a`. -/
def CPU.cpl (s : CPU) : CPU :=
  (({ s with a := 0xff ^^^ s.a }).set_f_n true).set_f_h true

/-- `ccf` (cpu.rs line 379). -/
def CPU.ccf (s : CPU) : CPU :=
  let s1 := (s.set_f_n false).set_f_h false
  s1.set_f_c (!s1.f_c)

/-- `scf` (cpu.rs line 390). -/
def CPU.scf (s : CPU) : CPU :=
  ((s.set_f_n false).set_f_h false).set_f_c true

/-- `_add` (cpu.rs lines 398-408). -/
def CPU._add (s : CPU) (val : Nat) : CPU :=
  let half_carry := decide ((s.a &&& 0xf) + (val &&& 0xf) > 0xf)
  let res := (s.a + val) % 256
  let carry := decide (s.a + val > 0xff)
  (((({ s with a := res }).set_f_z (res == 0)).set_f_n false).set_f_h half_carry).set_f_c carry

/-- `_sub` (cpu.rs lines 451-461): `overflowing_sub` on u8. -/
def CPU._sub (s : CPU) (val : Nat) : CPU :=
  let half_carry := decide (s.a &&& 0xf < val &&& 0xf)
  let res := (s.a + 256 - val) % 256
  let carry := decide (s.a < val)
  (((({ s with a := res }).set_f_z (res == 0)).set_f_n true).set_f_h half_carry).set_f_c carry

/-- `_adc` (cpu.rs lines 472-485). -/
def CPU._adc (s : CPU) (val : Nat) : CPU :=
  let c := if s.f_c then 1 else 0
  let res := (s.a + val + c) % 256
  let half_carry := decide ((s.a &&& 0xf) + (val &&& 0xf) + c > 0xf)
  let carry := decide (s.a + val + c > 0xff)
  (((({ s with a := res }).set_f_z (res == 0)).set_f_n false).set_f_h half_carry).set_f_c carry

/-- `_sbc` (cpu.rs lines 496-509). -/
def CPU._sbc (s : CPU) (val : Nat) : CPU :=
  let c := if s.f_c then 1 else 0
  let res := ((s.a + 256 - val) % 256 + 256 - c) % 256
  let half_carry := decide (s.a &&& 0xf < (val &&& 0xf) + c)
  let carry := decide (s.a < val + c)
  (((({ s with a := res }).set_f_z (res == 0)).set_f_n true).set_f_h half_carry).set_f_c carry

/-- `add_r8` (cpu.rs line 410). -/
def CPU.add_r8 (s : CPU) (reg : Nat) : CPU := s._add (s.read_r8 reg)

/-- `adc_r8` (cpu.rs line 418). -/
def CPU.adc_r8 (s : CPU) (reg : Nat) : CPU := s._adc (s.read_r8 reg)

/-- `sub_r8` (cpu.rs line 426). -/
def CPU.sub_r8 (s : CPU) (reg : Nat) : CPU := s._sub (s.read_r8 reg)

/-- `sbc_r8` (cpu.rs line 434). -/
def CPU.sbc_r8 (s : CPU) (reg : Nat) : CPU := s._sbc (s.read_r8 reg)

/-- `add_d8` (cpu.rs line 443). -/
def CPU.add_d8 (s : CPU) : CPU :=
  let p := s.read_d8
  p.2._add p.1

/-- `sub_d8` (cpu.rs line 464). -/
def CPU.sub_d8 (s : CPU) : CPU :=
  let p := s.read_d8
  p.2._sub p.1

/-- `adc_d8` (cpu.rs line 488). -/
def CPU.adc_d8 (s : CPU) : CPU :=
  let p := s.read_d8
  p.2._adc p.1

/-- `sbc_d8` (cpu.rs line 512). -/
def CPU.sbc_d8 (s : CPU) : CPU :=
  let p := s.read_d8
  p.2._sbc p.1

/-- `and_d8` (cpu.rs line 521). -/
def CPU.and_d8 (s : CPU) : CPU :=
  let p := s.read_d8
  let res := p.2.a &&& p.1
  (((({ p.2 with a := res }).set_f_z (res == 0)).set_f_n false).set_f_h true).set_f_c false

/-- `or_d8` (cpu.rs line 537). -/
def CPU.or_d8 (s : CPU) : CPU :=
  let p := s.read_d8
  let res := p.2.a ||| p.1
  (((({ p.2 with a := res }).set_f_z (res == 0)).set_f_n false).set_f_h false).set_f_c false

/-- `xor_d8` (cpu.rs line 553). -/
def CPU.xor_d8 (s : CPU) : CPU :=
  let p := s.read_d8
  let res := p.2.a ^^^ p.1
  (((({ p.2 with a := res }).set_f_z (res == 0)).set_f_n false).set_f_h false).set_f_c false

/-- `cp_d8` (cpu.rs line 569). -/
def CPU.cp_d8 (s : CPU) : CPU :=
  let p := s.read_d8
  let a := p.2.a
  (((p.2.set_f_z (a == p.1)).set_f_n true).set_f_h
    (decide (a &&& 0x0f < p.1 &&& 0x0f))).set_f_c (decide (a < p.1))

/-- `ldi_hl_a` (cpu.rs line 582). -/
def CPU.ldi_hl_a (s : CPU) : CPU :=
  let s1 := { s with mmu := s.mmu.write s.hl s.a }
  s1.set_hl ((s1.hl + 1) % 65536)

/-- `ldd_hl_a` (cpu.rs line 591). -/
def CPU.ldd_hl_a (s : CPU) : CPU :=
  let s1 := { s with mmu := s.mmu.write s.hl s.a }
  s1.set_hl ((s1.hl + 65536 - 1) % 65536)

/-- `ldi_a_hl` (cpu.rs line 600). -/
def CPU.ldi_a_hl (s : CPU) : CPU :=
  let s1 := { s with a := s.mmu.read s.hl }
  s1.set_hl ((s1.hl + 1) % 65536)

/-- `ldd_a_hl` (cpu.rs line 609). -/
def CPU.ldd_a_hl (s : CPU) : CPU :=
  let s1 := { s with a := s.mmu.read s.hl }
  s1.set_hl ((s1.hl + 65536 - 1) % 65536)

/-- `ld_ind_bc_a` (cpu.rs line 618). -/
def CPU.ld_ind_bc_a (s : CPU) : CPU := { s with mmu := s.mmu.write s.bc s.a }

/-- `ld_ind_de_a` (cpu.rs line 625). -/
def CPU.ld_ind_de_a (s : CPU) : CPU := { s with mmu := s.mmu.write s.de s.a }

/-- `ld_a_ind_bc` (cpu.rs line 632). -/
def CPU.ld_a_ind_bc (s : CPU) : CPU := { s with a := s.mmu.read s.bc }

/-- `ld_a_ind_de` (cpu.rs line 638). -/
def CPU.ld_a_ind_de (s : CPU) : CPU := { s with a := s.mmu.read s.de }

/-- `bit` (cpu.rs line 645). -/
def CPU.bit (s : CPU) (pos reg : Nat) : CPU :=
  let z := (s.read_r8 reg >>> pos) &&& 1 == 0
  ((s.set_f_z z).set_f_n false).set_f_h true

/-- `set` (cpu.rs line 655). -/
def CPU.set (s : CPU) (pos reg : Nat) : CPU :=
  let val := s.read_r8 reg
  s.write_r8 reg (val ||| (1 <<< pos))

/-- `res` (cpu.rs line 663): `val & !(1 << pos)` on u8 is
`val &&& (0xff ^^^ (1 <<< pos))`. -/
def CPU.res (s : CPU) (pos reg : Nat) : CPU :=
  let val := s.read_r8 reg
  s.write_r8 reg (val &&& (0xff ^^^ (1 <<< pos)))

/-- `_rl` (cpu.rs line 670): `orig << 1` truncates on u8. -/
def CPU._rl (s : CPU) (reg : Nat) : CPU :=
  let orig := s.read_r8 reg
  let res := ((orig <<< 1) &&& 0xff) ||| (if s.f_c then 1 else 0)
  let s1 := s.write_r8 reg res
  (((s1.set_f_z (res == 0)).set_f_n false).set_f_h false).set_f_c
    ((orig >>> 7) &&& 1 == 1)

/-- `rl` (cpu.rs line 682). -/
def CPU.rl (s : CPU) (reg : Nat) : CPU := s._rl reg

/-- `_rlc` (cpu.rs line 688): `rotate_left(1)` on u8. -/
def CPU._rlc (s : CPU) (reg : Nat) : CPU :=
  let orig := s.read_r8 reg
  let res := ((orig <<< 1) &&& 0xff) ||| (orig >>> 7)
  let s1 := s.write_r8 reg res
  (((s1.set_f_z (res == 0)).set_f_n false).set_f_h false).set_f_c
    ((orig >>> 7) &&& 1 == 1)

/-- `rlc` (cpu.rs line 700). -/
def CPU.rlc (s : CPU) (reg : Nat) : CPU := s._rlc reg

/-- `_rr` (cpu.rs line 706). -/
def CPU._rr (s : CPU) (reg : Nat) : CPU :=
  let orig := s.read_r8 reg
  let res := (orig >>> 1) ||| ((if s.f_c then 1 else 0) <<< 7)
  let s1 := s.write_r8 reg res
  (((s1.set_f_z (res == 0)).set_f_n false).set_f_h false).set_f_c (orig &&& 1 == 1)

/-- `rr` (cpu.rs line 718). -/
def CPU.rr (s : CPU) (reg : Nat) : CPU := s._rr reg

/-- `_rrc` (cpu.rs line 724): `rotate_right(1)` on u8. -/
def CPU._rrc (s : CPU) (reg : Nat) : CPU :=
  let orig := s.read_r8 reg
  let res := (orig >>> 1) ||| ((orig &&& 1) <<< 7)
  let s1 := s.write_r8 reg res
  (((s1.set_f_z (res == 0)).set_f_n false).set_f_h false).set_f_c (orig &&& 1 == 1)

/-- `rrc` (cpu.rs line 736). -/
def CPU.rrc (s : CPU) (reg : Nat) : CPU := s._rrc reg

/-- `sla` (cpu.rs line 743). -/
def CPU.sla (s : CPU) (reg : Nat) : CPU :=
  let orig := s.read_r8 reg
  let res := (orig <<< 1) &&& 0xff
  let s1 := s.write_r8 reg res
  (((s1.set_f_z (res == 0)).set_f_n false).set_f_h false).set_f_c
    (decide (orig &&& 0x80 > 0))

/-- `sra` (cpu.rs line 757). -/
def CPU.sra (s : CPU) (reg : Nat) : CPU :=
  let orig := s.read_r8 reg
  let res := (orig >>> 1) ||| (orig &&& 0x80)
  let s1 := s.write_r8 reg res
  (((s1.set_f_z (res == 0)).set_f_n false).set_f_h false).set_f_c
    (decide (orig &&& 1 > 0))

/-- `swap` (cpu.rs line 771). -/
def CPU.swap (s : CPU) (reg : Nat) : CPU :=
  let orig := s.read_r8 reg
  let res := ((orig &&& 0x0f) <<< 4) ||| ((orig &&& 0xf0) >>> 4)
  let s1 := s.write_r8 reg res
  (((s1.set_f_z (res == 0)).set_f_n false).set_f_h false).set_f_c false

/-- `srl` (cpu.rs line 785). -/
def CPU.srl (s : CPU) (reg : Nat) : CPU :=
  let orig := s.read_r8 reg
  let res := orig >>> 1
  let s1 := s.write_r8 reg res
  (((s1.set_f_z (res == 0)).set_f_n false).set_f_h false).set_f_c (orig &&& 1 == 1)

/-- `_jp` (cpu.rs line 798). -/
def CPU._jp (s : CPU) (addr : Nat) : CPU := { s with pc := addr }

/-- `jp_nz_d8` (cpu.rs lines 802-810): fetch target, jump only when Z clear. -/
def CPU.jp_nz_d8 (s : CPU) : CPU :=
  let p := s.read_d16
  if !p.2.f_z then p.2._jp p.1 else p.2

/-- `jp_nc_d8` (cpu.rs line 812). -/
def CPU.jp_nc_d8 (s : CPU) : CPU :=
  let p := s.read_d16
  if !p.2.f_c then p.2._jp p.1 else p.2

/-- `jp_z_d8` (cpu.rs line 822). -/
def CPU.jp_z_d8 (s : CPU) : CPU :=
  let p := s.read_d16
  if p.2.f_z then p.2._jp p.1 else p.2

/-- `jp_c_d8` (cpu.rs line 832). -/
def CPU.jp_c_d8 (s : CPU) : CPU :=
  let p := s.read_d16
  if p.2.f_c then p.2._jp p.1 else p.2

/-- `jp_d16` (cpu.rs line 843). -/
def CPU.jp_d16 (s : CPU) : CPU :=
  let p := s.read_d16
  { p.2 with pc := p.1 }

/-- `jp_hl` (cpu.rs line 852). -/
def CPU.jp_hl (s : CPU) : CPU := { s with pc := s.hl }

/-- `_jr` (cpu.rs line 902): relative jump, offset sign-extended. -/
def CPU._jr (s : CPU) (d : Nat) : CPU :=
  { s with pc := (s.pc + sx8_16 d) % 65536 }

/-- `jr_nz_d8` (cpu.rs line 859). -/
def CPU.jr_nz_d8 (s : CPU) : CPU :=
  let p := s.read_d8
  if !p.2.f_z then p.2._jr p.1 else p.2

/-- `jr_nc_d8` (cpu.rs line 870). -/
def CPU.jr_nc_d8 (s : CPU) : CPU :=
  let p := s.read_d8
  if !p.2.f_c then p.2._jr p.1 else p.2

/-- `jr_z_d8` (cpu.rs line 881). -/
def CPU.jr_z_d8 (s : CPU) : CPU :=
  let p := s.read_d8
  if p.2.f_z then p.2._jr p.1 else p.2

/-- `jr_c_d8` (cpu.rs line 892). -/
def CPU.jr_c_d8 (s : CPU) : CPU :=
  let p := s.read_d8
  if p.2.f_c then p.2._jr p.1 else p.2

/-- `jr_d8` (cpu.rs line 907). -/
def CPU.jr_d8 (s : CPU) : CPU :=
  let p := s.read_d8
  p.2._jr p.1

/-- `ld_io_d8_a` (cpu.rs line 915). -/
def CPU.ld_io_d8_a (s : CPU) : CPU :=
  let p := s.read_d8
  { p.2 with mmu := p.2.mmu.write (0xff00 ||| p.1) p.2.a }

/-- `ld_a_io_d8` (cpu.rs line 924). -/
def CPU.ld_a_io_d8 (s : CPU) : CPU :=
  let p := s.read_d8
  { p.2 with a := p.2.mmu.read (0xff00 ||| p.1) }

/-- `ld_io_c_a` (cpu.rs line 933). -/
def CPU.ld_io_c_a (s : CPU) : CPU :=
  { s with mmu := s.mmu.write (0xff00 ||| s.c) s.a }

/-- `ld_a_io_c` (cpu.rs line 941). -/
def CPU.ld_a_io_c (s : CPU) : CPU :=
  { s with a := s.mmu.read (0xff00 ||| s.c) }

/-- `ld_r8_d8` (cpu.rs line 950). -/
def CPU.ld_r8_d8 (s : CPU) (reg : Nat) : CPU :=
  let p := s.read_d8
  p.2.write_r8 reg p.1

/-- `inc_r8` (cpu.rs line 959). -/
def CPU.inc_r8 (s : CPU) (reg : Nat) : CPU :=
  let orig := s.read_r8 reg
  let res := (orig + 1) % 256
  let s1 := s.write_r8 reg res
  ((s1.set_f_z (res == 0)).set_f_h (orig &&& 0x0f == 0x0f)).set_f_n false

/-- `dec_r8` (cpu.rs line 972). -/
def CPU.dec_r8 (s : CPU) (reg : Nat) : CPU :=
  let orig := s.read_r8 reg
  let res := (orig + 256 - 1) % 256
  let s1 := s.write_r8 reg res
  ((s1.set_f_z (res == 0)).set_f_h (orig &&& 0x0f == 0x00)).set_f_n true

/-- `ld_r8_r8` (cpu.rs line 985). -/
def CPU.ld_r8_r8 (s : CPU) (reg1 reg2 : Nat) : CPU :=
  s.write_r8 reg1 (s.read_r8 reg2)

/-- `_call` (cpu.rs lines 996-1000): pre-decrement SP by 2, store return
address, jump. -/
def CPU._call (s : CPU) (addr : Nat) : CPU :=
  let s1 := { s with sp := (s.sp + 65536 - 2) % 65536 }
  let s2 := { s1 with mmu := s1.mmu.write16 s1.sp s1.pc }
  { s2 with pc := addr }

/-- `call_d16` (cpu.rs line 1003). -/
def CPU.call_d16 (s : CPU) : CPU :=
  let p := s.read_d16
  p.2._call p.1

/-- `call_nz_d16` (cpu.rs line 1012). -/
def CPU.call_nz_d16 (s : CPU) : CPU :=
  let p := s.read_d16
  if !p.2.f_z then p.2._call p.1 else p.2

/-- `call_nc_d16` (cpu.rs line 1023). -/
def CPU.call_nc_d16 (s : CPU) : CPU :=
  let p := s.read_d16
  if !p.2.f_c then p.2._call p.1 else p.2

/-- `call_z_d16` (cpu.rs line 1034). -/
def CPU.call_z_d16 (s : CPU) : CPU :=
  let p := s.read_d16
  if p.2.f_z then p.2._call p.1 else p.2

/-- `call_c_d16` (cpu.rs line 1045). -/
def CPU.call_c_d16 (s : CPU) : CPU :=
  let p := s.read_d16
  if p.2.f_c then p.2._call p.1 else p.2

/-- `rst` (cpu.rs line 1055). -/
def CPU.rst (s : CPU) (addr : Nat) : CPU := s._call addr

/-- `_ret` (cpu.rs lines 1060-1063): load PC from stack, post-increment SP. -/
def CPU._ret (s : CPU) : CPU :=
  let s1 := { s with pc := s.mmu.read16 s.sp }
  { s1 with sp := (s1.sp + 2) % 65536 }

/-- `ret` (cpu.rs line 1066). -/
def CPU.ret (s : CPU) : CPU := s._ret

/-- `ret_nz` (cpu.rs line 1073). -/
def CPU.ret_nz (s : CPU) : CPU := if !s.f_z then s._ret else s

/-- `ret_nc` (cpu.rs line 1082). -/
def CPU.ret_nc (s : CPU) : CPU := if !s.f_c then s._ret else s

/-- `ret_z` (cpu.rs line 1091). -/
def CPU.ret_z (s : CPU) : CPU := if s.f_z then s._ret else s

/-- `ret_c` (cpu.rs line 1100). -/
def CPU.ret_c (s : CPU) : CPU := if s.f_c then s._ret else s

/-- `push_bc` (cpu.rs line 1109). -/
def CPU.push_bc (s : CPU) : CPU :=
  let s1 := { s with sp := (s.sp + 65536 - 2) % 65536 }
  { s1 with mmu := s1.mmu.write16 s1.sp s1.bc }

/-- `push_de` (cpu.rs line 1118). -/
def CPU.push_de (s : CPU) : CPU :=
  let s1 := { s with sp := (s.sp + 65536 - 2) % 65536 }
  { s1 with mmu := s1.mmu.write16 s1.sp s1.de }

/-- `push_hl` (cpu.rs line 1127). -/
def CPU.push_hl (s : CPU) : CPU :=
  let s1 := { s with sp := (s.sp + 65536 - 2) % 65536 }
  { s1 with mmu := s1.mmu.write16 s1.sp s1.hl }

/-- `push_af` (cpu.rs line 1136). -/
def CPU.push_af (s : CPU) : CPU :=
  let s1 := { s with sp := (s.sp + 65536 - 2) % 65536 }
  { s1 with mmu := s1.mmu.write16 s1.sp s1.af }

/-- `pop_bc` (cpu.rs line 1145). -/
def CPU.pop_bc (s : CPU) : CPU :=
  let s1 := s.set_bc (s.mmu.read16 s.sp)
  { s1 with sp := (s1.sp + 2) % 65536 }

/-- `pop_de` (cpu.rs line 1154). -/
def CPU.pop_de (s : CPU) : CPU :=
  let s1 := s.set_de (s.mmu.read16 s.sp)
  { s1 with sp := (s1.sp + 2) % 65536 }

/-- `pop_hl` (cpu.rs line 1163). -/
def CPU.pop_hl (s : CPU) : CPU :=
  let s1 := s.set_hl (s.mmu.read16 s.sp)
  { s1 with sp := (s1.sp + 2) % 65536 }

/-- `pop_af` (cpu.rs lines 1172-1179): the popped word is masked with 0xfff0
before the AF write, keeping the low nibble of F zero. -/
def CPU.pop_af (s : CPU) : CPU :=
  let s1 := s.set_af (s.mmu.read16 s.sp &&& 0xfff0)
  { s1 with sp := (s1.sp + 2) % 65536 }

/-- `rlca` (cpu.rs line 1181). -/
def CPU.rlca (s : CPU) : CPU := (s._rlc 7).set_f_z false

/-- `rla` (cpu.rs line 1188). -/
def CPU.rla (s : CPU) : CPU := (s._rl 7).set_f_z false

/-- `rrca` (cpu.rs line 1195). -/
def CPU.rrca (s : CPU) : CPU := (s._rrc 7).set_f_z false

/-- `rra` (cpu.rs line 1202). -/
def CPU.rra (s : CPU) : CPU := (s._rr 7).set_f_z false

/-- `inc_r16` (cpu.rs line 1209). -/
def CPU.inc_r16 (s : CPU) (reg : Nat) : CPU :=
  s.write_r16 reg ((s.read_r16 reg + 1) % 65536)

/-- `dec_r16` (cpu.rs line 1216). -/
def CPU.dec_r16 (s : CPU) (reg : Nat) : CPU :=
  s.write_r16 reg ((s.read_r16 reg + 65536 - 1) % 65536)

/-- `ld_ind_d16_a` (cpu.rs line 1223). -/
def CPU.ld_ind_d16_a (s : CPU) : CPU :=
  let p := s.read_d16
  { p.2 with mmu := p.2.mmu.write p.1 p.2.a }

/-- `ld_a_ind_d16` (cpu.rs line 1231). -/
def CPU.ld_a_ind_d16 (s : CPU) : CPU :=
  let p := s.read_d16
  { p.2 with a := p.2.mmu.read p.1 }

/-- `di` (cpu.rs line 1240): interrupt handling is not implemented; no state
change. -/
def CPU.di (s : CPU) : CPU := s

/-- `ei` (cpu.rs line 1247): interrupt handling is not implemented; no state
change. -/
def CPU.ei (s : CPU) : CPU := s

/-- `reti` (cpu.rs line 1254). -/
def CPU.reti (s : CPU) : CPU := s._ret

/-- The 3-bit operand index `opcode & 0x7` (the source's `reg` binding in
`prefix` and `step`). -/
def reg_of (opcode : Nat) : Nat := opcode &&& 0x7

/-- Bits 3-5 of the opcode, `opcode >> 3 & 0x7` (the source's `pos` and
`reg2` bindings). -/
def pos_of (opcode : Nat) : Nat := (opcode >>> 3) &&& 0x7

/-- Decode-execute of a secondary (0xCB-prefixed) opcode byte
(cpu.rs lines 1265-1281), on the state after the byte was fetched.  The
source's final match arm panics on an unmatched opcode; it is modelled as
`none`. -/
def CPU.prefixed_op (s : CPU) (opcode : Nat) : Option CPU :=
  if opcode ≤ 0x07 then some (s.rlc (reg_of opcode))
  else if 0x08 ≤ opcode ∧ opcode ≤ 0x0f then some (s.rrc (reg_of opcode))
  else if 0x10 ≤ opcode ∧ opcode ≤ 0x17 then some (s.rl (reg_of opcode))
  else if 0x18 ≤ opcode ∧ opcode ≤ 0x1f then some (s.rr (reg_of opcode))
  else if 0x20 ≤ opcode ∧ opcode ≤ 0x27 then some (s.sla (reg_of opcode))
  else if 0x28 ≤ opcode ∧ opcode ≤ 0x2f then some (s.sra (reg_of opcode))
  else if 0x30 ≤ opcode ∧ opcode ≤ 0x37 then some (s.swap (reg_of opcode))
  else if 0x38 ≤ opcode ∧ opcode ≤ 0x3f then some (s.srl (reg_of opcode))
  else if 0x40 ≤ opcode ∧ opcode ≤ 0x7f then some (s.bit (pos_of opcode) (reg_of opcode))
  else if 0x80 ≤ opcode ∧ opcode ≤ 0xbf then some (s.res (pos_of opcode) (reg_of opcode))
  else if 0xc0 ≤ opcode ∧ opcode ≤ 0xff then some (s.set (pos_of opcode) (reg_of opcode))
  else none

/-- `prefix` (cpu.rs lines 1263-1282): fetch the second opcode byte, then
decode and execute it. -/
def CPU.prefixed (s0 : CPU) : Option CPU :=
  let p := s0.read_d8
  p.2.prefixed_op p.1

/-- Decode-execute of a primary opcode (the match in cpu.rs lines 1289-1464),
on the state after the opcode fetch.  The source's final match arm panics on
an unmatched opcode; it is modelled as `none`. -/
def CPU.exec (s : CPU) (opcode : Nat) : Option CPU :=
  if opcode = 0x00 then some s.nop
  else if opcode = 0x01 then some (s.ld_r16_d16 0)
  else if opcode = 0x11 then some (s.ld_r16_d16 1)
  else if opcode = 0x21 then some (s.ld_r16_d16 2)
  else if opcode = 0x31 then some (s.ld_r16_d16 3)
  else if opcode = 0x08 then some s.ld_ind_d16_sp
  else if opcode = 0xf9 then some s.ld_sp_hl
  else if opcode = 0x02 then some s.ld_ind_bc_a
  else if opcode = 0x12 then some s.ld_ind_de_a
  else if opcode = 0x0a then some s.ld_a_ind_bc
  else if opcode = 0x1a then some s.ld_a_ind_de
  else if opcode = 0xc5 then some s.push_bc
  else if opcode = 0xd5 then some s.push_de
  else if opcode = 0xe5 then some s.push_hl
  else if opcode = 0xf5 then some s.push_af
  else if opcode = 0xc1 then some s.pop_bc
  else if opcode = 0xd1 then some s.pop_de
  else if opcode = 0xe1 then some s.pop_hl
  else if opcode = 0xf1 then some s.pop_af
  else if opcode = 0xc2 then some s.jp_nz_d8
  else if opcode = 0xd2 then some s.jp_nc_d8
  else if opcode = 0xca then some s.jp_z_d8
  else if opcode = 0xda then some s.jp_c_d8
  else if opcode = 0xc3 then some s.jp_d16
  else if opcode = 0xe9 then some s.jp_hl
  else if opcode = 0x20 then some s.jr_nz_d8
  else if opcode = 0x30 then some s.jr_nc_d8
  else if opcode = 0x28 then some s.jr_z_d8
  else if opcode = 0x38 then some s.jr_c_d8
  else if opcode = 0x18 then some s.jr_d8
  else if opcode = 0x07 then some s.rlca
  else if opcode = 0x17 then some s.rla
  else if opcode = 0x0f then some s.rrca
  else if opcode = 0x1f then some s.rra
  else if opcode = 0x09 then some (s.add_hl_r16 0)
  else if opcode = 0x19 then some (s.add_hl_r16 1)
  else if opcode = 0x29 then some (s.add_hl_r16 2)
  else if opcode = 0x39 then some (s.add_hl_r16 3)
  else if opcode = 0xe8 then some s.add_sp_d8
  else if opcode = 0xf8 then some s.ld_hl_sp_d8
  else if 0x80 ≤ opcode ∧ opcode ≤ 0x87 then some (s.add_r8 (reg_of opcode))
  else if 0x88 ≤ opcode ∧ opcode ≤ 0x8f then some (s.adc_r8 (reg_of opcode))
  else if 0x90 ≤ opcode ∧ opcode ≤ 0x97 then some (s.sub_r8 (reg_of opcode))
  else if 0x98 ≤ opcode ∧ opcode ≤ 0x9f then some (s.sbc_r8 (reg_of opcode))
  else if 0xa0 ≤ opcode ∧ opcode ≤ 0xa7 then some (s.and_r8 (reg_of opcode))
  else if 0xb0 ≤ opcode ∧ opcode ≤ 0xb7 then some (s.or_r8 (reg_of opcode))
  else if 0xa8 ≤ opcode ∧ opcode ≤ 0xaf then some (s.xor_r8 (reg_of opcode))
  else if 0xb8 ≤ opcode ∧ opcode ≤ 0xbf then some (s.cp_r8 (reg_of opcode))
  else if opcode = 0x27 then some s.daa
  else if opcode = 0x2f then some s.cpl
  else if opcode = 0x37 then some s.scf
  else if opcode = 0x3f then some s.ccf
  else if opcode = 0xc6 then some s.add_d8
  else if opcode = 0xd6 then some s.sub_d8
  else if opcode = 0xe6 then some s.and_d8
  else if opcode = 0xf6 then some s.or_d8
  else if opcode = 0xce then some s.adc_d8
  else if opcode = 0xde then some s.sbc_d8
  else if opcode = 0xee then some s.xor_d8
  else if opcode = 0xfe then some s.cp_d8
  else if opcode = 0x22 then some s.ldi_hl_a
  else if opcode = 0x32 then some s.ldd_hl_a
  else if opcode = 0x2a then some s.ldi_a_hl
  else if opcode = 0x3a then some s.ldd_a_hl
  else if opcode = 0xe0 then some s.ld_io_d8_a
  else if opcode = 0xf0 then some s.ld_a_io_d8
  else if opcode = 0xe2 then some s.ld_io_c_a
  else if opcode = 0xf2 then some s.ld_a_io_c
  else if opcode = 0x06 ∨ opcode = 0x0e ∨ opcode = 0x16 ∨ opcode = 0x1e ∨
          opcode = 0x26 ∨ opcode = 0x2e ∨ opcode = 0x36 ∨ opcode = 0x3e then
    some (s.ld_r8_d8 (pos_of opcode))
  else if opcode = 0x04 ∨ opcode = 0x0c ∨ opcode = 0x14 ∨ opcode = 0x1c ∨
          opcode = 0x24 ∨ opcode = 0x2c ∨ opcode = 0x34 ∨ opcode = 0x3c then
    some (s.inc_r8 (pos_of opcode))
  else if opcode = 0x05 ∨ opcode = 0x0d ∨ opcode = 0x15 ∨ opcode = 0x1d ∨
          opcode = 0x25 ∨ opcode = 0x2d ∨ opcode = 0x35 ∨ opcode = 0x3d then
    some (s.dec_r8 (pos_of opcode))
  else if (0x40 ≤ opcode ∧ opcode ≤ 0x75) ∨ (0x77 ≤ opcode ∧ opcode ≤ 0x7f) then
    some (s.ld_r8_r8 (pos_of opcode) (reg_of opcode))
  else if opcode = 0xea then some s.ld_ind_d16_a
  else if opcode = 0xfa then some s.ld_a_ind_d16
  else if opcode = 0x03 then some (s.inc_r16 0)
  else if opcode = 0x13 then some (s.inc_r16 1)
  else if opcode = 0x23 then some (s.inc_r16 2)
  else if opcode = 0x33 then some (s.inc_r16 3)
  else if opcode = 0x0b then some (s.dec_r16 0)
  else if opcode = 0x1b then some (s.dec_r16 1)
  else if opcode = 0x2b then some (s.dec_r16 2)
  else if opcode = 0x3b then some (s.dec_r16 3)
  else if opcode = 0xcd then some s.call_d16
  else if opcode = 0xc4 then some s.call_nz_d16
  else if opcode = 0xd4 then some s.call_nc_d16
  else if opcode = 0xcc then some s.call_z_d16
  else if opcode = 0xdc then some s.call_c_d16
  else if opcode = 0xc9 then some s.ret
  else if opcode = 0xc0 then some s.ret_nz
  else if opcode = 0xd0 then some s.ret_nc
  else if opcode = 0xc8 then some s.ret_z
  else if opcode = 0xd8 then some s.ret_c
  else if opcode = 0xd9 then some s.reti
  else if opcode = 0xc7 then some (s.rst 0x00)
  else if opcode = 0xcf then some (s.rst 0x08)
  else if opcode = 0xd7 then some (s.rst 0x10)
  else if opcode = 0xdf then some (s.rst 0x18)
  else if opcode = 0xe7 then some (s.rst 0x20)
  else if opcode = 0xef then some (s.rst 0x28)
  else if opcode = 0xf7 then some (s.rst 0x30)
  else if opcode = 0xff then some (s.rst 0x38)
  else if opcode = 0xf3 then some s.di
  else if opcode = 0xfb then some s.ei
  else if opcode = 0xcb then s.prefixed
  else none

/-- `step` (cpu.rs lines 1284-1465): fetch one opcode byte at PC, then decode
and execute it. -/
def CPU.step (s0 : CPU) : Option CPU :=
  let p := s0.read_d8
  p.2.exec p.1

/-- Iterated dispatcher: `n` consecutive `step`s, failing if any step hits an
unimplemented opcode. -/
def CPU.stepN : Nat → CPU → Option CPU
  | 0, s => some s
  | n + 1, s => s.step.bind (CPU.stepN n)

/-! ### Bit-level infrastructure -/

theorem getBit_eq_testBit (x k : Nat) : ((x >>> k) &&& 1 == 1) = x.testBit k := by
  unfold Nat.testBit
  rcases Nat.mod_two_eq_zero_or_one (x >>> k) with h | h <;>
    simp [Nat.and_one_is_mod, Nat.one_and_eq_mod_two, h]

theorem and15_127 : (127 &&& 15 : Nat) = 15 := rfl

theorem and15_191 : (191 &&& 15 : Nat) = 15 := rfl

theorem and15_223 : (223 &&& 15 : Nat) = 15 := rfl

theorem and15_239 : (239 &&& 15 : Nat) = 15 := rfl

theorem and15_128 : (128 &&& 15 : Nat) = 0 := rfl

theorem and15_64 : (64 &&& 15 : Nat) = 0 := rfl

theorem and15_32 : (32 &&& 15 : Nat) = 0 := rfl

theorem and15_16 : (16 &&& 15 : Nat) = 0 := rfl

theorem and_255_15 : (255 &&& 15 : Nat) = 15 := rfl

theorem and_fff0_255 : (65520 &&& 255 : Nat) = 240 := rfl

theorem and_fff0_15 : (65520 &&& 15 : Nat) = 0 := rfl

theorem and_240_15 : (240 &&& 15 : Nat) = 0 := rfl

theorem and15_eq_mod (x : Nat) : x &&& 15 = x % 16 := by
  have h := Nat.and_pow_two_sub_one_eq_mod x 4
  norm_num at h
  exact h

theorem and255_eq_mod (x : Nat) : x &&& 255 = x % 256 := by
  have h := Nat.and_pow_two_sub_one_eq_mod x 8
  norm_num at h
  exact h

theorem and8191_eq_mod (x : Nat) : x &&& 8191 = x % 8192 := by
  have h := Nat.and_pow_two_sub_one_eq_mod x 13
  norm_num at h
  exact h

theorem and127_eq_mod (x : Nat) : x &&& 127 = x % 128 := by
  have h := Nat.and_pow_two_sub_one_eq_mod x 7
  norm_num at h
  exact h

/-- Recomposing the two little-endian bytes of a 16-bit value gives it back. -/
theorem bytes_recompose (v : Nat) (hv : v < 65536) :
    ((v >>> 8) &&& 0xff) <<< 8 ||| (v &&& 0xff) = v := by
  rw [and255_eq_mod, and255_eq_mod, Nat.shiftRight_eq_div_pow, Nat.shiftLeft_eq,
    Nat.mul_comm]
  have h2 : v % 256 < 2 ^ 8 := by omega
  have h3 := Nat.mul_add_lt_is_or h2 (v / 2 ^ 8 % 256)
  rw [← h3]
  omega

/-! ### Flag getter/setter lemmas -/

theorem f_z_set_f_z (s : CPU) (b : Bool) : (s.set_f_z b).f_z = b := by
  cases b <;>
    simp only [CPU.f_z, CPU.set_f_z, getBit_eq_testBit, Nat.testBit_or, Nat.testBit_and,
      Nat.testBit_shiftLeft] <;>
    simp [Nat.testBit_to_div_mod]

theorem f_z_set_f_n (s : CPU) (b : Bool) : (s.set_f_n b).f_z = s.f_z := by
  cases b <;>
    simp only [CPU.f_z, CPU.set_f_n, getBit_eq_testBit, Nat.testBit_or, Nat.testBit_and,
      Nat.testBit_shiftLeft] <;>
    simp [Nat.testBit_to_div_mod]

theorem f_z_set_f_h (s : CPU) (b : Bool) : (s.set_f_h b).f_z = s.f_z := by
  cases b <;>
    simp only [CPU.f_z, CPU.set_f_h, getBit_eq_testBit, Nat.testBit_or, Nat.testBit_and,
      Nat.testBit_shiftLeft] <;>
    simp [Nat.testBit_to_div_mod]

theorem f_z_set_f_c (s : CPU) (b : Bool) : (s.set_f_c b).f_z = s.f_z := by
  cases b <;>
    simp only [CPU.f_z, CPU.set_f_c, getBit_eq_testBit, Nat.testBit_or, Nat.testBit_and,
      Nat.testBit_shiftLeft] <;>
    simp [Nat.testBit_to_div_mod]

theorem f_n_set_f_z (s : CPU) (b : Bool) : (s.set_f_z b).f_n = s.f_n := by
  cases b <;>
    simp only [CPU.f_n, CPU.set_f_z, getBit_eq_testBit, Nat.testBit_or, Nat.testBit_and,
      Nat.testBit_shiftLeft] <;>
    simp [Nat.testBit_to_div_mod]

theorem f_n_set_f_n (s : CPU) (b : Bool) : (s.set_f_n b).f_n = b := by
  cases b <;>
    simp only [CPU.f_n, CPU.set_f_n, getBit_eq_testBit, Nat.testBit_or, Nat.testBit_and,
      Nat.testBit_shiftLeft] <;>
    simp [Nat.testBit_to_div_mod]

theorem f_n_set_f_h (s : CPU) (b : Bool) : (s.set_f_h b).f_n = s.f_n := by
  cases b <;>
    simp only [CPU.f_n, CPU.set_f_h, getBit_eq_testBit, Nat.testBit_or, Nat.testBit_and,
      Nat.testBit_shiftLeft] <;>
    simp [Nat.testBit_to_div_mod]

theorem f_n_set_f_c (s : CPU) (b : Bool) : (s.set_f_c b).f_n = s.f_n := by
  cases b <;>
    simp only [CPU.f_n, CPU.set_f_c, getBit_eq_testBit, Nat.testBit_or, Nat.testBit_and,
      Nat.testBit_shiftLeft] <;>
    simp [Nat.testBit_to_div_mod]

theorem f_h_set_f_z (s : CPU) (b : Bool) : (s.set_f_z b).f_h = s.f_h := by
  cases b <;>
    simp only [CPU.f_h, CPU.set_f_z, getBit_eq_testBit, Nat.testBit_or, Nat.testBit_and,
      Nat.testBit_shiftLeft] <;>
    simp [Nat.testBit_to_div_mod]

theorem f_h_set_f_n (s : CPU) (b : Bool) : (s.set_f_n b).f_h = s.f_h := by
  cases b <;>
    simp only [CPU.f_h, CPU.set_f_n, getBit_eq_testBit, Nat.testBit_or, Nat.testBit_and,
      Nat.testBit_shiftLeft] <;>
    simp [Nat.testBit_to_div_mod]

theorem f_h_set_f_h (s : CPU) (b : Bool) : (s.set_f_h b).f_h = b := by
  cases b <;>
    simp only [CPU.f_h, CPU.set_f_h, getBit_eq_testBit, Nat.testBit_or, Nat.testBit_and,
      Nat.testBit_shiftLeft] <;>
    simp [Nat.testBit_to_div_mod]

theorem f_h_set_f_c (s : CPU) (b : Bool) : (s.set_f_c b).f_h = s.f_h := by
  cases b <;>
    simp only [CPU.f_h, CPU.set_f_c, getBit_eq_testBit, Nat.testBit_or, Nat.testBit_and,
      Nat.testBit_shiftLeft] <;>
    simp [Nat.testBit_to_div_mod]

theorem f_c_set_f_z (s : CPU) (b : Bool) : (s.set_f_z b).f_c = s.f_c := by
  cases b <;>
    simp only [CPU.f_c, CPU.set_f_z, getBit_eq_testBit, Nat.testBit_or, Nat.testBit_and,
      Nat.testBit_shiftLeft] <;>
    simp [Nat.testBit_to_div_mod]

theorem f_c_set_f_n (s : CPU) (b : Bool) : (s.set_f_n b).f_c = s.f_c := by
  cases b <;>
    simp only [CPU.f_c, CPU.set_f_n, getBit_eq_testBit, Nat.testBit_or, Nat.testBit_and,
      Nat.testBit_shiftLeft] <;>
    simp [Nat.testBit_to_div_mod]

theorem f_c_set_f_h (s : CPU) (b : Bool) : (s.set_f_h b).f_c = s.f_c := by
  cases b <;>
    simp only [CPU.f_c, CPU.set_f_h, getBit_eq_testBit, Nat.testBit_or, Nat.testBit_and,
      Nat.testBit_shiftLeft] <;>
    simp [Nat.testBit_to_div_mod]

theorem f_c_set_f_c (s : CPU) (b : Bool) : (s.set_f_c b).f_c = b := by
  cases b <;>
    simp only [CPU.f_c, CPU.set_f_c, getBit_eq_testBit, Nat.testBit_or, Nat.testBit_and,
      Nat.testBit_shiftLeft] <;>
    simp [Nat.testBit_to_div_mod]

theorem a_set_f_z (s : CPU) (b : Bool) : (s.set_f_z b).a = s.a := rfl

theorem a_set_f_n (s : CPU) (b : Bool) : (s.set_f_n b).a = s.a := rfl

theorem a_set_f_h (s : CPU) (b : Bool) : (s.set_f_h b).a = s.a := rfl

theorem a_set_f_c (s : CPU) (b : Bool) : (s.set_f_c b).a = s.a := rfl

/-! ### Low-nibble preservation -/

/-- The flag-register invariant: the low nibble of F is zero. -/
def FlagInv (s : CPU) : Prop := s.f &&& 0x0f = 0

theorem lowNib_set_f_z (s : CPU) (b : Bool) : (s.set_f_z b).f &&& 0xf = s.f &&& 0xf := by
  cases b <;>
    simp [CPU.set_f_z, Nat.and_distrib_right, Nat.and_assoc, and15_127, and15_128]

theorem lowNib_set_f_n (s : CPU) (b : Bool) : (s.set_f_n b).f &&& 0xf = s.f &&& 0xf := by
  cases b <;>
    simp [CPU.set_f_n, Nat.and_distrib_right, Nat.and_assoc, and15_191, and15_64]

theorem lowNib_set_f_h (s : CPU) (b : Bool) : (s.set_f_h b).f &&& 0xf = s.f &&& 0xf := by
  cases b <;>
    simp [CPU.set_f_h, Nat.and_distrib_right, Nat.and_assoc, and15_223, and15_32]

theorem lowNib_set_f_c (s : CPU) (b : Bool) : (s.set_f_c b).f &&& 0xf = s.f &&& 0xf := by
  cases b <;>
    simp [CPU.set_f_c, Nat.and_distrib_right, Nat.and_assoc, and15_239, and15_16]

/-! ### F-register effect of each instruction -/

theorem f_write_r8 (s : CPU) (i v : Nat) : (s.write_r8 i v).f = s.f := by
  simp only [CPU.write_r8]
  split_ifs <;> rfl

theorem f_write_r16 (s : CPU) (i v : Nat) : (s.write_r16 i v).f = s.f := by
  simp only [CPU.write_r16]
  split_ifs <;> rfl

theorem f_nop (s : CPU) : s.nop.f = s.f := rfl

theorem f_ld_r16_d16 (s : CPU) (r : Nat) : (s.ld_r16_d16 r).f = s.f := by
  simp only [CPU.ld_r16_d16]
  rw [f_write_r16]
  try rfl

theorem f_ld_ind_d16_sp (s : CPU) : s.ld_ind_d16_sp.f = s.f := by
  simp only [CPU.ld_ind_d16_sp, CPU.read_d16]

theorem f_ld_sp_hl (s : CPU) : s.ld_sp_hl.f = s.f := rfl

theorem f_ld_ind_bc_a (s : CPU) : s.ld_ind_bc_a.f = s.f := rfl

theorem f_ld_ind_de_a (s : CPU) : s.ld_ind_de_a.f = s.f := rfl

theorem f_ld_a_ind_bc (s : CPU) : s.ld_a_ind_bc.f = s.f := rfl

theorem f_ld_a_ind_de (s : CPU) : s.ld_a_ind_de.f = s.f := rfl

theorem f_ldi_hl_a (s : CPU) : s.ldi_hl_a.f = s.f := rfl

theorem f_ldd_hl_a (s : CPU) : s.ldd_hl_a.f = s.f := rfl

theorem f_ldi_a_hl (s : CPU) : s.ldi_a_hl.f = s.f := rfl

theorem f_ldd_a_hl (s : CPU) : s.ldd_a_hl.f = s.f := rfl

theorem f_jp_d16 (s : CPU) : s.jp_d16.f = s.f := rfl

theorem f_jp_hl (s : CPU) : s.jp_hl.f = s.f := rfl

theorem f_jr_d8 (s : CPU) : s.jr_d8.f = s.f := rfl

theorem f_jp_nz_d8 (s : CPU) : s.jp_nz_d8.f = s.f := by
  simp only [CPU.jp_nz_d8]
  split <;> rfl

theorem f_jp_nc_d8 (s : CPU) : s.jp_nc_d8.f = s.f := by
  simp only [CPU.jp_nc_d8]
  split <;> rfl

theorem f_jp_z_d8 (s : CPU) : s.jp_z_d8.f = s.f := by
  simp only [CPU.jp_z_d8]
  split <;> rfl

theorem f_jp_c_d8 (s : CPU) : s.jp_c_d8.f = s.f := by
  simp only [CPU.jp_c_d8]
  split <;> rfl

theorem f_jr_nz_d8 (s : CPU) : s.jr_nz_d8.f = s.f := by
  simp only [CPU.jr_nz_d8]
  split <;> rfl

theorem f_jr_nc_d8 (s : CPU) : s.jr_nc_d8.f = s.f := by
  simp only [CPU.jr_nc_d8]
  split <;> rfl

theorem f_jr_z_d8 (s : CPU) : s.jr_z_d8.f = s.f := by
  simp only [CPU.jr_z_d8]
  split <;> rfl

theorem f_jr_c_d8 (s : CPU) : s.jr_c_d8.f = s.f := by
  simp only [CPU.jr_c_d8]
  split <;> rfl

theorem f_ld_io_d8_a (s : CPU) : s.ld_io_d8_a.f = s.f := rfl

theorem f_ld_a_io_d8 (s : CPU) : s.ld_a_io_d8.f = s.f := rfl

theorem f_ld_io_c_a (s : CPU) : s.ld_io_c_a.f = s.f := rfl

theorem f_ld_a_io_c (s : CPU) : s.ld_a_io_c.f = s.f := rfl

theorem f_ld_r8_d8 (s : CPU) (r : Nat) : (s.ld_r8_d8 r).f = s.f := by
  simp only [CPU.ld_r8_d8]
  rw [f_write_r8]
  try rfl

theorem f_ld_r8_r8 (s : CPU) (r1 r2 : Nat) : (s.ld_r8_r8 r1 r2).f = s.f := by
  simp only [CPU.ld_r8_r8]
  rw [f_write_r8]
  try rfl

theorem f_call_d16 (s : CPU) : s.call_d16.f = s.f := by
  simp only [CPU.call_d16, CPU._call, CPU.read_d16]

theorem f_call_nz_d16 (s : CPU) : s.call_nz_d16.f = s.f := by
  simp only [CPU.call_nz_d16]
  split <;> simp only [CPU._call, CPU.read_d16]

theorem f_call_nc_d16 (s : CPU) : s.call_nc_d16.f = s.f := by
  simp only [CPU.call_nc_d16]
  split <;> simp only [CPU._call, CPU.read_d16]

theorem f_call_z_d16 (s : CPU) : s.call_z_d16.f = s.f := by
  simp only [CPU.call_z_d16]
  split <;> simp only [CPU._call, CPU.read_d16]

theorem f_call_c_d16 (s : CPU) : s.call_c_d16.f = s.f := by
  simp only [CPU.call_c_d16]
  split <;> simp only [CPU._call, CPU.read_d16]

theorem f_rst (s : CPU) (a : Nat) : (s.rst a).f = s.f := by
  simp only [CPU.rst, CPU._call]

theorem f_ret (s : CPU) : s.ret.f = s.f := by
  simp only [CPU.ret, CPU._ret]

theorem f_ret_nz (s : CPU) : s.ret_nz.f = s.f := by
  simp only [CPU.ret_nz]
  split <;> rfl

theorem f_ret_nc (s : CPU) : s.ret_nc.f = s.f := by
  simp only [CPU.ret_nc]
  split <;> rfl

theorem f_ret_z (s : CPU) : s.ret_z.f = s.f := by
  simp only [CPU.ret_z]
  split <;> rfl

theorem f_ret_c (s : CPU) : s.ret_c.f = s.f := by
  simp only [CPU.ret_c]
  split <;> rfl

theorem f_reti (s : CPU) : s.reti.f = s.f := by
  simp only [CPU.reti, CPU._ret]

theorem f_push_bc (s : CPU) : s.push_bc.f = s.f := by
  simp only [CPU.push_bc]

theorem f_push_de (s : CPU) : s.push_de.f = s.f := by
  simp only [CPU.push_de]

theorem f_push_hl (s : CPU) : s.push_hl.f = s.f := by
  simp only [CPU.push_hl]

theorem f_push_af (s : CPU) : s.push_af.f = s.f := by
  simp only [CPU.push_af]

theorem f_pop_bc (s : CPU) : s.pop_bc.f = s.f := by
  simp only [CPU.pop_bc, CPU.set_bc]

theorem f_pop_de (s : CPU) : s.pop_de.f = s.f := by
  simp only [CPU.pop_de, CPU.set_de]

theorem f_pop_hl (s : CPU) : s.pop_hl.f = s.f := by
  simp only [CPU.pop_hl, CPU.set_hl]

theorem f_inc_r16 (s : CPU) (r : Nat) : (s.inc_r16 r).f = s.f := by
  simp only [CPU.inc_r16]
  rw [f_write_r16]
  try rfl

theorem f_dec_r16 (s : CPU) (r : Nat) : (s.dec_r16 r).f = s.f := by
  simp only [CPU.dec_r16]
  rw [f_write_r16]
  try rfl

theorem f_ld_ind_d16_a (s : CPU) : s.ld_ind_d16_a.f = s.f := rfl

theorem f_ld_a_ind_d16 (s : CPU) : s.ld_a_ind_d16.f = s.f := rfl

theorem f_di (s : CPU) : s.di.f = s.f := rfl

theorem f_ei (s : CPU) : s.ei.f = s.f := rfl

theorem f_set (s : CPU) (p r : Nat) : (s.set p r).f = s.f := by
  simp only [CPU.set]
  rw [f_write_r8]
  try rfl

theorem f_res (s : CPU) (p r : Nat) : (s.res p r).f = s.f := by
  simp only [CPU.res]
  rw [f_write_r8]
  try rfl

/-! ### Low-nibble preservation of the flag-setting instructions -/

theorem lowNib_add_hl_r16 (s : CPU) (r : Nat) :
    (s.add_hl_r16 r).f &&& 0xf = s.f &&& 0xf := by
  simp only [CPU.add_hl_r16, CPU.set_hl, lowNib_set_f_c, lowNib_set_f_h, lowNib_set_f_n]

theorem lowNib_add_sp0 (s : CPU) (d : Nat) :
    (s._add_sp d).2.f &&& 0xf = s.f &&& 0xf := by
  simp only [CPU._add_sp, lowNib_set_f_c, lowNib_set_f_h, lowNib_set_f_n, lowNib_set_f_z]

theorem lowNib_add_sp_d8 (s : CPU) : s.add_sp_d8.f &&& 0xf = s.f &&& 0xf := by
  simp only [CPU.add_sp_d8, CPU.read_d8]
  rw [lowNib_add_sp0]

theorem lowNib_ld_hl_sp_d8 (s : CPU) : s.ld_hl_sp_d8.f &&& 0xf = s.f &&& 0xf := by
  simp only [CPU.ld_hl_sp_d8, CPU.read_d8, CPU.set_hl]
  rw [lowNib_add_sp0]

theorem lowNib_and_r8 (s : CPU) (r : Nat) : (s.and_r8 r).f &&& 0xf = s.f &&& 0xf := by
  simp only [CPU.and_r8, lowNib_set_f_c, lowNib_set_f_h, lowNib_set_f_n, lowNib_set_f_z]

theorem lowNib_or_r8 (s : CPU) (r : Nat) : (s.or_r8 r).f &&& 0xf = s.f &&& 0xf := by
  simp only [CPU.or_r8, lowNib_set_f_c, lowNib_set_f_h, lowNib_set_f_n, lowNib_set_f_z]

theorem lowNib_xor_r8 (s : CPU) (r : Nat) : (s.xor_r8 r).f &&& 0xf = s.f &&& 0xf := by
  simp only [CPU.xor_r8, lowNib_set_f_c, lowNib_set_f_h, lowNib_set_f_n, lowNib_set_f_z]

theorem lowNib_cp_r8 (s : CPU) (r : Nat) : (s.cp_r8 r).f &&& 0xf = s.f &&& 0xf := by
  simp only [CPU.cp_r8, lowNib_set_f_c, lowNib_set_f_h, lowNib_set_f_n, lowNib_set_f_z]

theorem lowNib_daa (s : CPU) : s.daa.f &&& 0xf = s.f &&& 0xf := by
  simp only [CPU.daa]
  split_ifs <;>
    simp only [lowNib_set_f_h, lowNib_set_f_z, lowNib_set_f_c]

theorem lowNib_cpl (s : CPU) : s.cpl.f &&& 0xf = s.f &&& 0xf := by
  simp only [CPU.cpl, lowNib_set_f_h, lowNib_set_f_n]

theorem lowNib_ccf (s : CPU) : s.ccf.f &&& 0xf = s.f &&& 0xf := by
  simp only [CPU.ccf, lowNib_set_f_c, lowNib_set_f_h, lowNib_set_f_n]

theorem lowNib_scf (s : CPU) : s.scf.f &&& 0xf = s.f &&& 0xf := by
  simp only [CPU.scf, lowNib_set_f_c, lowNib_set_f_h, lowNib_set_f_n]

theorem lowNib_add0 (s : CPU) (v : Nat) : (s._add v).f &&& 0xf = s.f &&& 0xf := by
  simp only [CPU._add, lowNib_set_f_c, lowNib_set_f_h, lowNib_set_f_n, lowNib_set_f_z]

theorem lowNib_sub0 (s : CPU) (v : Nat) : (s._sub v).f &&& 0xf = s.f &&& 0xf := by
  simp only [CPU._sub, lowNib_set_f_c, lowNib_set_f_h, lowNib_set_f_n, lowNib_set_f_z]

theorem lowNib_adc0 (s : CPU) (v : Nat) : (s._adc v).f &&& 0xf = s.f &&& 0xf := by
  simp only [CPU._adc, lowNib_set_f_c, lowNib_set_f_h, lowNib_set_f_n, lowNib_set_f_z]

theorem lowNib_sbc0 (s : CPU) (v : Nat) : (s._sbc v).f &&& 0xf = s.f &&& 0xf := by
  simp only [CPU._sbc, lowNib_set_f_c, lowNib_set_f_h, lowNib_set_f_n, lowNib_set_f_z]

theorem lowNib_add_r8 (s : CPU) (r : Nat) : (s.add_r8 r).f &&& 0xf = s.f &&& 0xf :=
  lowNib_add0 s _

theorem lowNib_adc_r8 (s : CPU) (r : Nat) : (s.adc_r8 r).f &&& 0xf = s.f &&& 0xf :=
  lowNib_adc0 s _

theorem lowNib_sub_r8 (s : CPU) (r : Nat) : (s.sub_r8 r).f &&& 0xf = s.f &&& 0xf :=
  lowNib_sub0 s _

theorem lowNib_sbc_r8 (s : CPU) (r : Nat) : (s.sbc_r8 r).f &&& 0xf = s.f &&& 0xf :=
  lowNib_sbc0 s _

theorem lowNib_add_d8 (s : CPU) : s.add_d8.f &&& 0xf = s.f &&& 0xf :=
  lowNib_add0 _ _

theorem lowNib_sub_d8 (s : CPU) : s.sub_d8.f &&& 0xf = s.f &&& 0xf :=
  lowNib_sub0 _ _

theorem lowNib_adc_d8 (s : CPU) : s.adc_d8.f &&& 0xf = s.f &&& 0xf :=
  lowNib_adc0 _ _

theorem lowNib_sbc_d8 (s : CPU) : s.sbc_d8.f &&& 0xf = s.f &&& 0xf :=
  lowNib_sbc0 _ _

theorem lowNib_and_d8 (s : CPU) : s.and_d8.f &&& 0xf = s.f &&& 0xf := by
  simp only [CPU.and_d8, CPU.read_d8, lowNib_set_f_c, lowNib_set_f_h, lowNib_set_f_n,
    lowNib_set_f_z]

theorem lowNib_or_d8 (s : CPU) : s.or_d8.f &&& 0xf = s.f &&& 0xf := by
  simp only [CPU.or_d8, CPU.read_d8, lowNib_set_f_c, lowNib_set_f_h, lowNib_set_f_n,
    lowNib_set_f_z]

theorem lowNib_xor_d8 (s : CPU) : s.xor_d8.f &&& 0xf = s.f &&& 0xf := by
  simp only [CPU.xor_d8, CPU.read_d8, lowNib_set_f_c, lowNib_set_f_h, lowNib_set_f_n,
    lowNib_set_f_z]

theorem lowNib_cp_d8 (s : CPU) : s.cp_d8.f &&& 0xf = s.f &&& 0xf := by
  simp only [CPU.cp_d8, CPU.read_d8, lowNib_set_f_c, lowNib_set_f_h, lowNib_set_f_n,
    lowNib_set_f_z]

theorem lowNib_inc_r8 (s : CPU) (r : Nat) : (s.inc_r8 r).f &&& 0xf = s.f &&& 0xf := by
  simp only [CPU.inc_r8, lowNib_set_f_n, lowNib_set_f_h, lowNib_set_f_z, f_write_r8]

theorem lowNib_dec_r8 (s : CPU) (r : Nat) : (s.dec_r8 r).f &&& 0xf = s.f &&& 0xf := by
  simp only [CPU.dec_r8, lowNib_set_f_n, lowNib_set_f_h, lowNib_set_f_z, f_write_r8]

theorem lowNib_bit (s : CPU) (p r : Nat) : (s.bit p r).f &&& 0xf = s.f &&& 0xf := by
  simp only [CPU.bit, lowNib_set_f_h, lowNib_set_f_n, lowNib_set_f_z]

theorem lowNib_rl0 (s : CPU) (r : Nat) : (s._rl r).f &&& 0xf = s.f &&& 0xf := by
  simp only [CPU._rl, lowNib_set_f_c, lowNib_set_f_h, lowNib_set_f_n, lowNib_set_f_z,
    f_write_r8]

theorem lowNib_rlc0 (s : CPU) (r : Nat) : (s._rlc r).f &&& 0xf = s.f &&& 0xf := by
  simp only [CPU._rlc, lowNib_set_f_c, lowNib_set_f_h, lowNib_set_f_n, lowNib_set_f_z,
    f_write_r8]

theorem lowNib_rr0 (s : CPU) (r : Nat) : (s._rr r).f &&& 0xf = s.f &&& 0xf := by
  simp only [CPU._rr, lowNib_set_f_c, lowNib_set_f_h, lowNib_set_f_n, lowNib_set_f_z,
    f_write_r8]

theorem lowNib_rrc0 (s : CPU) (r : Nat) : (s._rrc r).f &&& 0xf = s.f &&& 0xf := by
  simp only [CPU._rrc, lowNib_set_f_c, lowNib_set_f_h, lowNib_set_f_n, lowNib_set_f_z,
    f_write_r8]

theorem lowNib_rl (s : CPU) (r : Nat) : (s.rl r).f &&& 0xf = s.f &&& 0xf :=
  lowNib_rl0 s r

theorem lowNib_rlc (s : CPU) (r : Nat) : (s.rlc r).f &&& 0xf = s.f &&& 0xf :=
  lowNib_rlc0 s r

theorem lowNib_rr (s : CPU) (r : Nat) : (s.rr r).f &&& 0xf = s.f &&& 0xf :=
  lowNib_rr0 s r

theorem lowNib_rrc (s : CPU) (r : Nat) : (s.rrc r).f &&& 0xf = s.f &&& 0xf :=
  lowNib_rrc0 s r

theorem lowNib_rlca (s : CPU) : s.rlca.f &&& 0xf = s.f &&& 0xf := by
  simp only [CPU.rlca, lowNib_set_f_z]
  rw [lowNib_rlc0]

theorem lowNib_rla (s : CPU) : s.rla.f &&& 0xf = s.f &&& 0xf := by
  simp only [CPU.rla, lowNib_set_f_z]
  rw [lowNib_rl0]

theorem lowNib_rrca (s : CPU) : s.rrca.f &&& 0xf = s.f &&& 0xf := by
  simp only [CPU.rrca, lowNib_set_f_z]
  rw [lowNib_rrc0]

theorem lowNib_rra (s : CPU) : s.rra.f &&& 0xf = s.f &&& 0xf := by
  simp only [CPU.rra, lowNib_set_f_z]
  rw [lowNib_rr0]

theorem lowNib_sla (s : CPU) (r : Nat) : (s.sla r).f &&& 0xf = s.f &&& 0xf := by
  simp only [CPU.sla, lowNib_set_f_c, lowNib_set_f_h, lowNib_set_f_n, lowNib_set_f_z,
    f_write_r8]

theorem lowNib_sra (s : CPU) (r : Nat) : (s.sra r).f &&& 0xf = s.f &&& 0xf := by
  simp only [CPU.sra, lowNib_set_f_c, lowNib_set_f_h, lowNib_set_f_n, lowNib_set_f_z,
    f_write_r8]

theorem lowNib_swap (s : CPU) (r : Nat) : (s.swap r).f &&& 0xf = s.f &&& 0xf := by
  simp only [CPU.swap, lowNib_set_f_c, lowNib_set_f_h, lowNib_set_f_n, lowNib_set_f_z,
    f_write_r8]

theorem lowNib_srl (s : CPU) (r : Nat) : (s.srl r).f &&& 0xf = s.f &&& 0xf := by
  simp only [CPU.srl, lowNib_set_f_c, lowNib_set_f_h, lowNib_set_f_n, lowNib_set_f_z,
    f_write_r8]

/-- `pop_af` forces the low nibble of F to zero outright. -/
theorem lowNib_pop_af (s : CPU) : s.pop_af.f &&& 0xf = 0 := by
  simp only [CPU.pop_af, CPU.set_af]
  rw [Nat.and_assoc, Nat.and_assoc, and_255_15, and_fff0_15, Nat.and_zero]

/-! ### Invariant preservation through the dispatchers -/

theorem prefixed_op_preserves (s : CPU) (op : Nat) (s' : CPU)
    (hs : s.prefixed_op op = some s') (h : FlagInv s) : FlagInv s' := by
  simp only [CPU.prefixed_op] at hs
  repeat' split at hs
  all_goals
    first
      | exact Option.noConfusion hs
      | (obtain rfl := Option.some.inj hs
         simp only [FlagInv] at h ⊢
         first
           | (rw [lowNib_rlc]; exact h)
           | (rw [lowNib_rrc]; exact h)
           | (rw [lowNib_rl]; exact h)
           | (rw [lowNib_rr]; exact h)
           | (rw [lowNib_sla]; exact h)
           | (rw [lowNib_sra]; exact h)
           | (rw [lowNib_swap]; exact h)
           | (rw [lowNib_srl]; exact h)
           | (rw [lowNib_bit]; exact h)
           | (rw [f_set]; exact h)
           | (rw [f_res]; exact h))

theorem prefixed_preserves (s s' : CPU) (hs : s.prefixed = some s') (h : FlagInv s) :
    FlagInv s' :=
  prefixed_op_preserves _ _ _ hs h

theorem exec_preserves (s : CPU) (op : Nat) (s' : CPU) (hs : s.exec op = some s')
    (h : FlagInv s) : FlagInv s' := by
  simp only [CPU.exec] at hs
  by_cases hc0 : op = 0x00
  · rw [if_pos hc0] at hs
    obtain rfl := Option.some.inj hs
    simp only [FlagInv] at h ⊢
    rw [f_nop]
    exact h
  rw [if_neg hc0] at hs
  by_cases hc1 : op = 0x01
  · rw [if_pos hc1] at hs
    obtain rfl := Option.some.inj hs
    simp only [FlagInv] at h ⊢
    rw [f_ld_r16_d16]
    exact h
  rw [if_neg hc1] at hs
  by_cases hc2 : op = 0x11
  · rw [if_pos hc2] at hs
    obtain rfl := Option.some.inj hs
    simp only [FlagInv] at h ⊢
    rw [f_ld_r16_d16]
    exact h
  rw [if_neg hc2] at hs
  by_cases hc3 : op = 0x21
  · rw [if_pos hc3] at hs
    obtain rfl := Option.some.inj hs
    simp only [FlagInv] at h ⊢
    rw [f_ld_r16_d16]
    exact h
  rw [if_neg hc3] at hs
  by_cases hc4 : op = 0x31
  · rw [if_pos hc4] at hs
    obtain rfl := Option.some.inj hs
    simp only [FlagInv] at h ⊢
    rw [f_ld_r16_d16]
    exact h
  rw [if_neg hc4] at hs
  by_cases hc5 : op = 0x08
  · rw [if_pos hc5] at hs
    obtain rfl := Option.some.inj hs
    simp only [FlagInv] at h ⊢
    rw [f_ld_ind_d16_sp]
    exact h
  rw [if_neg hc5] at hs
  by_cases hc6 : op = 0xf9
  · rw [if_pos hc6] at hs
    obtain rfl := Option.some.inj hs
    simp only [FlagInv] at h ⊢
    rw [f_ld_sp_hl]
    exact h
  rw [if_neg hc6] at hs
  by_cases hc7 : op = 0x02
  · rw [if_pos hc7] at hs
    obtain rfl := Option.some.inj hs
    simp only [FlagInv] at h ⊢
    rw [f_ld_ind_bc_a]
    exact h
  rw [if_neg hc7] at hs
  by_cases hc8 : op = 0x12
  · rw [if_pos hc8] at hs
    obtain rfl := Option.some.inj hs
    simp only [FlagInv] at h ⊢
    rw [f_ld_ind_de_a]
    exact h
  rw [if_neg hc8] at hs
  by_cases hc9 : op = 0x0a
  · rw [if_pos hc9] at hs
    obtain rfl := Option.some.inj hs
    simp only [FlagInv] at h ⊢
    rw [f_ld_a_ind_bc]
    exact h
  rw [if_neg hc9] at hs
  by_cases hc10 : op = 0x1a
  · rw [if_pos hc10] at hs
    obtain rfl := Option.some.inj hs
    simp only [FlagInv] at h ⊢
    rw [f_ld_a_ind_de]
    exact h
  rw [if_neg hc10] at hs
  by_cases hc11 : op = 0xc5
  · rw [if_pos hc11] at hs
    obtain rfl := Option.some.inj hs
    simp only [FlagInv] at h ⊢
    rw [f_push_bc]
    exact h
  rw [if_neg hc11] at hs
  by_cases hc12 : op = 0xd5
  · rw [if_pos hc12] at hs
    obtain rfl := Option.some.inj hs
    simp only [FlagInv] at h ⊢
    rw [f_push_de]
    exact h
  rw [if_neg hc12] at hs
  by_cases hc13 : op = 0xe5
  · rw [if_pos hc13] at hs
    obtain rfl := Option.some.inj hs
    simp only [FlagInv] at h ⊢
    rw [f_push_hl]
    exact h
  rw [if_neg hc13] at hs
  by_cases hc14 : op = 0xf5
  · rw [if_pos hc14] at hs
    obtain rfl := Option.some.inj hs
    simp only [FlagInv] at h ⊢
    rw [f_push_af]
    exact h
  rw [if_neg hc14] at hs
  by_cases hc15 : op = 0xc1
  · rw [if_pos hc15] at hs
    obtain rfl := Option.some.inj hs
    simp only [FlagInv] at h ⊢
    rw [f_pop_bc]
    exact h
  rw [if_neg hc15] at hs
  by_cases hc16 : op = 0xd1
  · rw [if_pos hc16] at hs
    obtain rfl := Option.some.inj hs
    simp only [FlagInv] at h ⊢
    rw [f_pop_de]
    exact h
  rw [if_neg hc16] at hs
  by_cases hc17 : op = 0xe1
  · rw [if_pos hc17] at hs
    obtain rfl := Option.some.inj hs
    simp only [FlagInv] at h ⊢
    rw [f_pop_hl]
    exact h
  rw [if_neg hc17] at hs
  by_cases hc18 : op = 0xf1
  · rw [if_pos hc18] at hs
    obtain rfl := Option.some.inj hs
    simp only [FlagInv]
    rw [lowNib_pop_af]
  rw [if_neg hc18] at hs
  by_cases hc19 : op = 0xc2
  · rw [if_pos hc19] at hs
    obtain rfl := Option.some.inj hs
    simp only [FlagInv] at h ⊢
    rw [f_jp_nz_d8]
    exact h
  rw [if_neg hc19] at hs
  by_cases hc20 : op = 0xd2
  · rw [if_pos hc20] at hs
    obtain rfl := Option.some.inj hs
    simp only [FlagInv] at h ⊢
    rw [f_jp_nc_d8]
    exact h
  rw [if_neg hc20] at hs
  by_cases hc21 : op = 0xca
  · rw [if_pos hc21] at hs
    obtain rfl := Option.some.inj hs
    simp only [FlagInv] at h ⊢
    rw [f_jp_z_d8]
    exact h
  rw [if_neg hc21] at hs
  by_cases hc22 : op = 0xda
  · rw [if_pos hc22] at hs
    obtain rfl := Option.some.inj hs
    simp only [FlagInv] at h ⊢
    rw [f_jp_c_d8]
    exact h
  rw [if_neg hc22] at hs
  by_cases hc23 : op = 0xc3
  · rw [if_pos hc23] at hs
    obtain rfl := Option.some.inj hs
    simp only [FlagInv] at h ⊢
    rw [f_jp_d16]
    exact h
  rw [if_neg hc23] at hs
  by_cases hc24 : op = 0xe9
  · rw [if_pos hc24] at hs
    obtain rfl := Option.some.inj hs
    simp only [FlagInv] at h ⊢
    rw [f_jp_hl]
    exact h
  rw [if_neg hc24] at hs
  by_cases hc25 : op = 0x20
  · rw [if_pos hc25] at hs
    obtain rfl := Option.some.inj hs
    simp only [FlagInv] at h ⊢
    rw [f_jr_nz_d8]
    exact h
  rw [if_neg hc25] at hs
  by_cases hc26 : op = 0x30
  · rw [if_pos hc26] at hs
    obtain rfl := Option.some.inj hs
    simp only [FlagInv] at h ⊢
    rw [f_jr_nc_d8]
    exact h
  rw [if_neg hc26] at hs
  by_cases hc27 : op = 0x28
  · rw [if_pos hc27] at hs
    obtain rfl := Option.some.inj hs
    simp only [FlagInv] at h ⊢
    rw [f_jr_z_d8]
    exact h
  rw [if_neg hc27] at hs
  by_cases hc28 : op = 0x38
  · rw [if_pos hc28] at hs
    obtain rfl := Option.some.inj hs
    simp only [FlagInv] at h ⊢
    rw [f_jr_c_d8]
    exact h
  rw [if_neg hc28] at hs
  by_cases hc29 : op = 0x18
  · rw [if_pos hc29] at hs
    obtain rfl := Option.some.inj hs
    simp only [FlagInv] at h ⊢
    rw [f_jr_d8]
    exact h
  rw [if_neg hc29] at hs
  by_cases hc30 : op = 0x07
  · rw [if_pos hc30] at hs
    obtain rfl := Option.some.inj hs
    simp only [FlagInv] at h ⊢
    rw [lowNib_rlca]
    exact h
  rw [if_neg hc30] at hs
  by_cases hc31 : op = 0x17
  · rw [if_pos hc31] at hs
    obtain rfl := Option.some.inj hs
    simp only [FlagInv] at h ⊢
    rw [lowNib_rla]
    exact h
  rw [if_neg hc31] at hs
  by_cases hc32 : op = 0x0f
  · rw [if_pos hc32] at hs
    obtain rfl := Option.some.inj hs
    simp only [FlagInv] at h ⊢
    rw [lowNib_rrca]
    exact h
  rw [if_neg hc32] at hs
  by_cases hc33 : op = 0x1f
  · rw [if_pos hc33] at hs
    obtain rfl := Option.some.inj hs
    simp only [FlagInv] at h ⊢
    rw [lowNib_rra]
    exact h
  rw [if_neg hc33] at hs
  by_cases hc34 : op = 0x09
  · rw [if_pos hc34] at hs
    obtain rfl := Option.some.inj hs
    simp only [FlagInv] at h ⊢
    rw [lowNib_add_hl_r16]
    exact h
  rw [if_neg hc34] at hs
  by_cases hc35 : op = 0x19
  · rw [if_pos hc35] at hs
    obtain rfl := Option.some.inj hs
    simp only [FlagInv] at h ⊢
    rw [lowNib_add_hl_r16]
    exact h
  rw [if_neg hc35] at hs
  by_cases hc36 : op = 0x29
  · rw [if_pos hc36] at hs
    obtain rfl := Option.some.inj hs
    simp only [FlagInv] at h ⊢
    rw [lowNib_add_hl_r16]
    exact h
  rw [if_neg hc36] at hs
  by_cases hc37 : op = 0x39
  · rw [if_pos hc37] at hs
    obtain rfl := Option.some.inj hs
    simp only [FlagInv] at h ⊢
    rw [lowNib_add_hl_r16]
    exact h
  rw [if_neg hc37] at hs
  by_cases hc38 : op = 0xe8
  · rw [if_pos hc38] at hs
    obtain rfl := Option.some.inj hs
    simp only [FlagInv] at h ⊢
    rw [lowNib_add_sp_d8]
    exact h
  rw [if_neg hc38] at hs
  by_cases hc39 : op = 0xf8
  · rw [if_pos hc39] at hs
    obtain rfl := Option.some.inj hs
    simp only [FlagInv] at h ⊢
    rw [lowNib_ld_hl_sp_d8]
    exact h
  rw [if_neg hc39] at hs
  by_cases hc40 : 0x80 ≤ op ∧ op ≤ 0x87
  · rw [if_pos hc40] at hs
    obtain rfl := Option.some.inj hs
    simp only [FlagInv] at h ⊢
    rw [lowNib_add_r8]
    exact h
  rw [if_neg hc40] at hs
  by_cases hc41 : 0x88 ≤ op ∧ op ≤ 0x8f
  · rw [if_pos hc41] at hs
    obtain rfl := Option.some.inj hs
    simp only [FlagInv] at h ⊢
    rw [lowNib_adc_r8]
    exact h
  rw [if_neg hc41] at hs
  by_cases hc42 : 0x90 ≤ op ∧ op ≤ 0x97
  · rw [if_pos hc42] at hs
    obtain rfl := Option.some.inj hs
    simp only [FlagInv] at h ⊢
    rw [lowNib_sub_r8]
    exact h
  rw [if_neg hc42] at hs
  by_cases hc43 : 0x98 ≤ op ∧ op ≤ 0x9f
  · rw [if_pos hc43] at hs
    obtain rfl := Option.some.inj hs
    simp only [FlagInv] at h ⊢
    rw [lowNib_sbc_r8]
    exact h
  rw [if_neg hc43] at hs
  by_cases hc44 : 0xa0 ≤ op ∧ op ≤ 0xa7
  · rw [if_pos hc44] at hs
    obtain rfl := Option.some.inj hs
    simp only [FlagInv] at h ⊢
    rw [lowNib_and_r8]
    exact h
  rw [if_neg hc44] at hs
  by_cases hc45 : 0xb0 ≤ op ∧ op ≤ 0xb7
  · rw [if_pos hc45] at hs
    obtain rfl := Option.some.inj hs
    simp only [FlagInv] at h ⊢
    rw [lowNib_or_r8]
    exact h
  rw [if_neg hc45] at hs
  by_cases hc46 : 0xa8 ≤ op ∧ op ≤ 0xaf
  · rw [if_pos hc46] at hs
    obtain rfl := Option.some.inj hs
    simp only [FlagInv] at h ⊢
    rw [lowNib_xor_r8]
    exact h
  rw [if_neg hc46] at hs
  by_cases hc47 : 0xb8 ≤ op ∧ op ≤ 0xbf
  · rw [if_pos hc47] at hs
    obtain rfl := Option.some.inj hs
    simp only [FlagInv] at h ⊢
    rw [lowNib_cp_r8]
    exact h
  rw [if_neg hc47] at hs
  by_cases hc48 : op = 0x27
  · rw [if_pos hc48] at hs
    obtain rfl := Option.some.inj hs
    simp only [FlagInv] at h ⊢
    rw [lowNib_daa]
    exact h
  rw [if_neg hc48] at hs
  by_cases hc49 : op = 0x2f
  · rw [if_pos hc49] at hs
    obtain rfl := Option.some.inj hs
    simp only [FlagInv] at h ⊢
    rw [lowNib_cpl]
    exact h
  rw [if_neg hc49] at hs
  by_cases hc50 : op = 0x37
  · rw [if_pos hc50] at hs
    obtain rfl := Option.some.inj hs
    simp only [FlagInv] at h ⊢
    rw [lowNib_scf]
    exact h
  rw [if_neg hc50] at hs
  by_cases hc51 : op = 0x3f
  · rw [if_pos hc51] at hs
    obtain rfl := Option.some.inj hs
    simp only [FlagInv] at h ⊢
    rw [lowNib_ccf]
    exact h
  rw [if_neg hc51] at hs
  by_cases hc52 : op = 0xc6
  · rw [if_pos hc52] at hs
    obtain rfl := Option.some.inj hs
    simp only [FlagInv] at h ⊢
    rw [lowNib_add_d8]
    exact h
  rw [if_neg hc52] at hs
  by_cases hc53 : op = 0xd6
  · rw [if_pos hc53] at hs
    obtain rfl := Option.some.inj hs
    simp only [FlagInv] at h ⊢
    rw [lowNib_sub_d8]
    exact h
  rw [if_neg hc53] at hs
  by_cases hc54 : op = 0xe6
  · rw [if_pos hc54] at hs
    obtain rfl := Option.some.inj hs
    simp only [FlagInv] at h ⊢
    rw [lowNib_and_d8]
    exact h
  rw [if_neg hc54] at hs
  by_cases hc55 : op = 0xf6
  · rw [if_pos hc55] at hs
    obtain rfl := Option.some.inj hs
    simp only [FlagInv] at h ⊢
    rw [lowNib_or_d8]
    exact h
  rw [if_neg hc55] at hs
  by_cases hc56 : op = 0xce
  · rw [if_pos hc56] at hs
    obtain rfl := Option.some.inj hs
    simp only [FlagInv] at h ⊢
    rw [lowNib_adc_d8]
    exact h
  rw [if_neg hc56] at hs
  by_cases hc57 : op = 0xde
  · rw [if_pos hc57] at hs
    obtain rfl := Option.some.inj hs
    simp only [FlagInv] at h ⊢
    rw [lowNib_sbc_d8]
    exact h
  rw [if_neg hc57] at hs
  by_cases hc58 : op = 0xee
  · rw [if_pos hc58] at hs
    obtain rfl := Option.some.inj hs
    simp only [FlagInv] at h ⊢
    rw [lowNib_xor_d8]
    exact h
  rw [if_neg hc58] at hs
  by_cases hc59 : op = 0xfe
  · rw [if_pos hc59] at hs
    obtain rfl := Option.some.inj hs
    simp only [FlagInv] at h ⊢
    rw [lowNib_cp_d8]
    exact h
  rw [if_neg hc59] at hs
  by_cases hc60 : op = 0x22
  · rw [if_pos hc60] at hs
    obtain rfl := Option.some.inj hs
    simp only [FlagInv] at h ⊢
    rw [f_ldi_hl_a]
    exact h
  rw [if_neg hc60] at hs
  by_cases hc61 : op = 0x32
  · rw [if_pos hc61] at hs
    obtain rfl := Option.some.inj hs
    simp only [FlagInv] at h ⊢
    rw [f_ldd_hl_a]
    exact h
  rw [if_neg hc61] at hs
  by_cases hc62 : op = 0x2a
  · rw [if_pos hc62] at hs
    obtain rfl := Option.some.inj hs
    simp only [FlagInv] at h ⊢
    rw [f_ldi_a_hl]
    exact h
  rw [if_neg hc62] at hs
  by_cases hc63 : op = 0x3a
  · rw [if_pos hc63] at hs
    obtain rfl := Option.some.inj hs
    simp only [FlagInv] at h ⊢
    rw [f_ldd_a_hl]
    exact h
  rw [if_neg hc63] at hs
  by_cases hc64 : op = 0xe0
  · rw [if_pos hc64] at hs
    obtain rfl := Option.some.inj hs
    simp only [FlagInv] at h ⊢
    rw [f_ld_io_d8_a]
    exact h
  rw [if_neg hc64] at hs
  by_cases hc65 : op = 0xf0
  · rw [if_pos hc65] at hs
    obtain rfl := Option.some.inj hs
    simp only [FlagInv] at h ⊢
    rw [f_ld_a_io_d8]
    exact h
  rw [if_neg hc65] at hs
  by_cases hc66 : op = 0xe2
  · rw [if_pos hc66] at hs
    obtain rfl := Option.some.inj hs
    simp only [FlagInv] at h ⊢
    rw [f_ld_io_c_a]
    exact h
  rw [if_neg hc66] at hs
  by_cases hc67 : op = 0xf2
  · rw [if_pos hc67] at hs
    obtain rfl := Option.some.inj hs
    simp only [FlagInv] at h ⊢
    rw [f_ld_a_io_c]
    exact h
  rw [if_neg hc67] at hs
  by_cases hc68 : op = 0x06 ∨ op = 0x0e ∨ op = 0x16 ∨ op = 0x1e ∨ op = 0x26 ∨ op = 0x2e ∨ op = 0x36 ∨ op = 0x3e
  · rw [if_pos hc68] at hs
    obtain rfl := Option.some.inj hs
    simp only [FlagInv] at h ⊢
    rw [f_ld_r8_d8]
    exact h
  rw [if_neg hc68] at hs
  by_cases hc69 : op = 0x04 ∨ op = 0x0c ∨ op = 0x14 ∨ op = 0x1c ∨ op = 0x24 ∨ op = 0x2c ∨ op = 0x34 ∨ op = 0x3c
  · rw [if_pos hc69] at hs
    obtain rfl := Option.some.inj hs
    simp only [FlagInv] at h ⊢
    rw [lowNib_inc_r8]
    exact h
  rw [if_neg hc69] at hs
  by_cases hc70 : op = 0x05 ∨ op = 0x0d ∨ op = 0x15 ∨ op = 0x1d ∨ op = 0x25 ∨ op = 0x2d ∨ op = 0x35 ∨ op = 0x3d
  · rw [if_pos hc70] at hs
    obtain rfl := Option.some.inj hs
    simp only [FlagInv] at h ⊢
    rw [lowNib_dec_r8]
    exact h
  rw [if_neg hc70] at hs
  by_cases hc71 : (0x40 ≤ op ∧ op ≤ 0x75) ∨ (0x77 ≤ op ∧ op ≤ 0x7f)
  · rw [if_pos hc71] at hs
    obtain rfl := Option.some.inj hs
    simp only [FlagInv] at h ⊢
    rw [f_ld_r8_r8]
    exact h
  rw [if_neg hc71] at hs
  by_cases hc72 : op = 0xea
  · rw [if_pos hc72] at hs
    obtain rfl := Option.some.inj hs
    simp only [FlagInv] at h ⊢
    rw [f_ld_ind_d16_a]
    exact h
  rw [if_neg hc72] at hs
  by_cases hc73 : op = 0xfa
  · rw [if_pos hc73] at hs
    obtain rfl := Option.some.inj hs
    simp only [FlagInv] at h ⊢
    rw [f_ld_a_ind_d16]
    exact h
  rw [if_neg hc73] at hs
  by_cases hc74 : op = 0x03
  · rw [if_pos hc74] at hs
    obtain rfl := Option.some.inj hs
    simp only [FlagInv] at h ⊢
    rw [f_inc_r16]
    exact h
  rw [if_neg hc74] at hs
  by_cases hc75 : op = 0x13
  · rw [if_pos hc75] at hs
    obtain rfl := Option.some.inj hs
    simp only [FlagInv] at h ⊢
    rw [f_inc_r16]
    exact h
  rw [if_neg hc75] at hs
  by_cases hc76 : op = 0x23
  · rw [if_pos hc76] at hs
    obtain rfl := Option.some.inj hs
    simp only [FlagInv] at h ⊢
    rw [f_inc_r16]
    exact h
  rw [if_neg hc76] at hs
  by_cases hc77 : op = 0x33
  · rw [if_pos hc77] at hs
    obtain rfl := Option.some.inj hs
    simp only [FlagInv] at h ⊢
    rw [f_inc_r16]
    exact h
  rw [if_neg hc77] at hs
  by_cases hc78 : op = 0x0b
  · rw [if_pos hc78] at hs
    obtain rfl := Option.some.inj hs
    simp only [FlagInv] at h ⊢
    rw [f_dec_r16]
    exact h
  rw [if_neg hc78] at hs
  by_cases hc79 : op = 0x1b
  · rw [if_pos hc79] at hs
    obtain rfl := Option.some.inj hs
    simp only [FlagInv] at h ⊢
    rw [f_dec_r16]
    exact h
  rw [if_neg hc79] at hs
  by_cases hc80 : op = 0x2b
  · rw [if_pos hc80] at hs
    obtain rfl := Option.some.inj hs
    simp only [FlagInv] at h ⊢
    rw [f_dec_r16]
    exact h
  rw [if_neg hc80] at hs
  by_cases hc81 : op = 0x3b
  · rw [if_pos hc81] at hs
    obtain rfl := Option.some.inj hs
    simp only [FlagInv] at h ⊢
    rw [f_dec_r16]
    exact h
  rw [if_neg hc81] at hs
  by_cases hc82 : op = 0xcd
  · rw [if_pos hc82] at hs
    obtain rfl := Option.some.inj hs
    simp only [FlagInv] at h ⊢
    rw [f_call_d16]
    exact h
  rw [if_neg hc82] at hs
  by_cases hc83 : op = 0xc4
  · rw [if_pos hc83] at hs
    obtain rfl := Option.some.inj hs
    simp only [FlagInv] at h ⊢
    rw [f_call_nz_d16]
    exact h
  rw [if_neg hc83] at hs
  by_cases hc84 : op = 0xd4
  · rw [if_pos hc84] at hs
    obtain rfl := Option.some.inj hs
    simp only [FlagInv] at h ⊢
    rw [f_call_nc_d16]
    exact h
  rw [if_neg hc84] at hs
  by_cases hc85 : op = 0xcc
  · rw [if_pos hc85] at hs
    obtain rfl := Option.some.inj hs
    simp only [FlagInv] at h ⊢
    rw [f_call_z_d16]
    exact h
  rw [if_neg hc85] at hs
  by_cases hc86 : op = 0xdc
  · rw [if_pos hc86] at hs
    obtain rfl := Option.some.inj hs
    simp only [FlagInv] at h ⊢
    rw [f_call_c_d16]
    exact h
  rw [if_neg hc86] at hs
  by_cases hc87 : op = 0xc9
  · rw [if_pos hc87] at hs
    obtain rfl := Option.some.inj hs
    simp only [FlagInv] at h ⊢
    rw [f_ret]
    exact h
  rw [if_neg hc87] at hs
  by_cases hc88 : op = 0xc0
  · rw [if_pos hc88] at hs
    obtain rfl := Option.some.inj hs
    simp only [FlagInv] at h ⊢
    rw [f_ret_nz]
    exact h
  rw [if_neg hc88] at hs
  by_cases hc89 : op = 0xd0
  · rw [if_pos hc89] at hs
    obtain rfl := Option.some.inj hs
    simp only [FlagInv] at h ⊢
    rw [f_ret_nc]
    exact h
  rw [if_neg hc89] at hs
  by_cases hc90 : op = 0xc8
  · rw [if_pos hc90] at hs
    obtain rfl := Option.some.inj hs
    simp only [FlagInv] at h ⊢
    rw [f_ret_z]
    exact h
  rw [if_neg hc90] at hs
  by_cases hc91 : op = 0xd8
  · rw [if_pos hc91] at hs
    obtain rfl := Option.some.inj hs
    simp only [FlagInv] at h ⊢
    rw [f_ret_c]
    exact h
  rw [if_neg hc91] at hs
  by_cases hc92 : op = 0xd9
  · rw [if_pos hc92] at hs
    obtain rfl := Option.some.inj hs
    simp only [FlagInv] at h ⊢
    rw [f_reti]
    exact h
  rw [if_neg hc92] at hs
  by_cases hc93 : op = 0xc7
  · rw [if_pos hc93] at hs
    obtain rfl := Option.some.inj hs
    simp only [FlagInv] at h ⊢
    rw [f_rst]
    exact h
  rw [if_neg hc93] at hs
  by_cases hc94 : op = 0xcf
  · rw [if_pos hc94] at hs
    obtain rfl := Option.some.inj hs
    simp only [FlagInv] at h ⊢
    rw [f_rst]
    exact h
  rw [if_neg hc94] at hs
  by_cases hc95 : op = 0xd7
  · rw [if_pos hc95] at hs
    obtain rfl := Option.some.inj hs
    simp only [FlagInv] at h ⊢
    rw [f_rst]
    exact h
  rw [if_neg hc95] at hs
  by_cases hc96 : op = 0xdf
  · rw [if_pos hc96] at hs
    obtain rfl := Option.some.inj hs
    simp only [FlagInv] at h ⊢
    rw [f_rst]
    exact h
  rw [if_neg hc96] at hs
  by_cases hc97 : op = 0xe7
  · rw [if_pos hc97] at hs
    obtain rfl := Option.some.inj hs
    simp only [FlagInv] at h ⊢
    rw [f_rst]
    exact h
  rw [if_neg hc97] at hs
  by_cases hc98 : op = 0xef
  · rw [if_pos hc98] at hs
    obtain rfl := Option.some.inj hs
    simp only [FlagInv] at h ⊢
    rw [f_rst]
    exact h
  rw [if_neg hc98] at hs
  by_cases hc99 : op = 0xf7
  · rw [if_pos hc99] at hs
    obtain rfl := Option.some.inj hs
    simp only [FlagInv] at h ⊢
    rw [f_rst]
    exact h
  rw [if_neg hc99] at hs
  by_cases hc100 : op = 0xff
  · rw [if_pos hc100] at hs
    obtain rfl := Option.some.inj hs
    simp only [FlagInv] at h ⊢
    rw [f_rst]
    exact h
  rw [if_neg hc100] at hs
  by_cases hc101 : op = 0xf3
  · rw [if_pos hc101] at hs
    obtain rfl := Option.some.inj hs
    simp only [FlagInv] at h ⊢
    rw [f_di]
    exact h
  rw [if_neg hc101] at hs
  by_cases hc102 : op = 0xfb
  · rw [if_pos hc102] at hs
    obtain rfl := Option.some.inj hs
    simp only [FlagInv] at h ⊢
    rw [f_ei]
    exact h
  rw [if_neg hc102] at hs
  by_cases hc103 : op = 0xcb
  · rw [if_pos hc103] at hs
    exact prefixed_preserves _ _ hs h
  rw [if_neg hc103] at hs
  exact Option.noConfusion hs

theorem step_preserves (s s' : CPU) (hs : s.step = some s') (h : FlagInv s) :
    FlagInv s' :=
  exec_preserves _ _ _ hs h

theorem stepN_preserves (n : Nat) (s s' : CPU) (hs : CPU.stepN n s = some s')
    (h : FlagInv s) : FlagInv s' := by
  induction n generalizing s with
  | zero =>
    simp only [CPU.stepN] at hs
    obtain rfl := Option.some.inj hs
    exact h
  | succ k ih =>
    simp only [CPU.stepN] at hs
    cases hstep : s.step with
    | none => rw [hstep] at hs; exact Option.noConfusion hs
    | some t =>
      rw [hstep] at hs
      exact ih t hs (step_preserves s t hstep h)

/-! ### Constants and helper lemmas for the claim theorems -/

/-- An MMU whose backing stores are all zero. -/
def zmmu : MMU := ⟨fun _ => 0, fun _ => 0, fun _ => 0⟩

theorem f_z_upd_a (t : CPU) (x : Nat) : ({ t with a := x } : CPU).f_z = t.f_z := rfl

theorem f_n_upd_a (t : CPU) (x : Nat) : ({ t with a := x } : CPU).f_n = t.f_n := rfl

theorem f_h_upd_a (t : CPU) (x : Nat) : ({ t with a := x } : CPU).f_h = t.f_h := rfl

theorem f_c_upd_a (t : CPU) (x : Nat) : ({ t with a := x } : CPU).f_c = t.f_c := rfl

theorem a_upd_a (t : CPU) (x : Nat) : ({ t with a := x } : CPU).a = x := rfl

theorem pair_lt {x y : Nat} (hx : x < 256) (hy : y < 256) : (x <<< 8) ||| y < 65536 := by
  have h1 : x <<< 8 < 2 ^ 16 := by
    rw [Nat.shiftLeft_eq]
    have e8 : (2 : Nat) ^ 8 = 256 := by norm_num
    have e16 : (2 : Nat) ^ 16 = 65536 := by norm_num
    omega
  have h2 : y < 2 ^ 16 := by
    have e16 : (2 : Nat) ^ 16 = 65536 := by norm_num
    omega
  have h3 := Nat.or_lt_two_pow h1 h2
  have e16 : (2 : Nat) ^ 16 = 65536 := by norm_num
  omega

/-- `write16` then `read16` round-trips at any address whose two bytes both
fall inside a writable region (working RAM or high RAM). -/
theorem write16_read16_writable (m : MMU) (addr v : Nat) (hv : v < 65536)
    (h : (0xc000 ≤ addr ∧ addr ≤ 0xdffe) ∨ (0xff80 ≤ addr ∧ addr ≤ 0xfffd)) :
    (m.write16 addr v).read16 addr = v := by
  have e1 : (addr + 1) % 65536 = addr + 1 := by omega
  rcases h with ⟨h1, h2⟩ | ⟨h1, h2⟩ <;>
    · simp only [MMU.write16, MMU.write, MMU.read16, MMU.read, e1, and8191_eq_mod,
        and127_eq_mod]
      split_ifs <;> first
        | omega
        | (simp only []
           rw [if_pos trivial]
           split
           · exfalso
             omega
           · rw [if_pos trivial]
             exact bytes_recompose v hv)

theorem exec_xc2 (s : CPU) : s.exec 0xc2 = some s.jp_nz_d8 := by
  simp [CPU.exec]

theorem exec_xd2 (s : CPU) : s.exec 0xd2 = some s.jp_nc_d8 := by
  simp [CPU.exec]

theorem exec_xca (s : CPU) : s.exec 0xca = some s.jp_z_d8 := by
  simp [CPU.exec]

theorem exec_xda (s : CPU) : s.exec 0xda = some s.jp_c_d8 := by
  simp [CPU.exec]

theorem exec_xc4 (s : CPU) : s.exec 0xc4 = some s.call_nz_d16 := by
  simp [CPU.exec]

theorem exec_xd4 (s : CPU) : s.exec 0xd4 = some s.call_nc_d16 := by
  simp [CPU.exec]

theorem exec_xcc (s : CPU) : s.exec 0xcc = some s.call_z_d16 := by
  simp [CPU.exec]

theorem exec_xdc (s : CPU) : s.exec 0xdc = some s.call_c_d16 := by
  simp [CPU.exec]

theorem exec_x20 (s : CPU) : s.exec 0x20 = some s.jr_nz_d8 := by
  simp [CPU.exec]

theorem exec_x30 (s : CPU) : s.exec 0x30 = some s.jr_nc_d8 := by
  simp [CPU.exec]

theorem exec_x28 (s : CPU) : s.exec 0x28 = some s.jr_z_d8 := by
  simp [CPU.exec]

theorem exec_x38 (s : CPU) : s.exec 0x38 = some s.jr_c_d8 := by
  simp [CPU.exec]

theorem exec_xc0 (s : CPU) : s.exec 0xc0 = some s.ret_nz := by
  simp [CPU.exec]

theorem exec_xd0 (s : CPU) : s.exec 0xd0 = some s.ret_nc := by
  simp [CPU.exec]

theorem exec_xc8 (s : CPU) : s.exec 0xc8 = some s.ret_z := by
  simp [CPU.exec]

theorem exec_xd8 (s : CPU) : s.exec 0xd8 = some s.ret_c := by
  simp [CPU.exec]

theorem step_untaken_c2 (s : CPU) (hop : s.mmu.read s.pc = 0xc2) (hf : s.f_z = true) :
    s.step = some { s with pc := (s.pc + 3) % 65536 } := by
  simp only [CPU.step, CPU.read_d8, hop]
  rw [exec_xc2]
  have hf1 : ∀ p : Nat, CPU.f_z { s with pc := p } = true := fun p => hf
  simp only [CPU.jp_nz_d8, CPU.read_d16, hf1, Bool.not_true, Bool.not_false, Bool.false_eq_true, if_false]
  all_goals simp only [Option.some.injEq, CPU.mk.injEq, true_and, and_true]
  all_goals omega

theorem step_untaken_d2 (s : CPU) (hop : s.mmu.read s.pc = 0xd2) (hf : s.f_c = true) :
    s.step = some { s with pc := (s.pc + 3) % 65536 } := by
  simp only [CPU.step, CPU.read_d8, hop]
  rw [exec_xd2]
  have hf1 : ∀ p : Nat, CPU.f_c { s with pc := p } = true := fun p => hf
  simp only [CPU.jp_nc_d8, CPU.read_d16, hf1, Bool.not_true, Bool.not_false, Bool.false_eq_true, if_false]
  all_goals simp only [Option.some.injEq, CPU.mk.injEq, true_and, and_true]
  all_goals omega

theorem step_untaken_ca (s : CPU) (hop : s.mmu.read s.pc = 0xca) (hf : s.f_z = false) :
    s.step = some { s with pc := (s.pc + 3) % 65536 } := by
  simp only [CPU.step, CPU.read_d8, hop]
  rw [exec_xca]
  have hf1 : ∀ p : Nat, CPU.f_z { s with pc := p } = false := fun p => hf
  simp only [CPU.jp_z_d8, CPU.read_d16, hf1, Bool.not_true, Bool.not_false, Bool.false_eq_true, if_false]
  all_goals simp only [Option.some.injEq, CPU.mk.injEq, true_and, and_true]
  all_goals omega

theorem step_untaken_da (s : CPU) (hop : s.mmu.read s.pc = 0xda) (hf : s.f_c = false) :
    s.step = some { s with pc := (s.pc + 3) % 65536 } := by
  simp only [CPU.step, CPU.read_d8, hop]
  rw [exec_xda]
  have hf1 : ∀ p : Nat, CPU.f_c { s with pc := p } = false := fun p => hf
  simp only [CPU.jp_c_d8, CPU.read_d16, hf1, Bool.not_true, Bool.not_false, Bool.false_eq_true, if_false]
  all_goals simp only [Option.some.injEq, CPU.mk.injEq, true_and, and_true]
  all_goals omega

theorem step_untaken_c4 (s : CPU) (hop : s.mmu.read s.pc = 0xc4) (hf : s.f_z = true) :
    s.step = some { s with pc := (s.pc + 3) % 65536 } := by
  simp only [CPU.step, CPU.read_d8, hop]
  rw [exec_xc4]
  have hf1 : ∀ p : Nat, CPU.f_z { s with pc := p } = true := fun p => hf
  simp only [CPU.call_nz_d16, CPU.read_d16, hf1, Bool.not_true, Bool.not_false, Bool.false_eq_true, if_false]
  all_goals simp only [Option.some.injEq, CPU.mk.injEq, true_and, and_true]
  all_goals omega

theorem step_untaken_d4 (s : CPU) (hop : s.mmu.read s.pc = 0xd4) (hf : s.f_c = true) :
    s.step = some { s with pc := (s.pc + 3) % 65536 } := by
  simp only [CPU.step, CPU.read_d8, hop]
  rw [exec_xd4]
  have hf1 : ∀ p : Nat, CPU.f_c { s with pc := p } = true := fun p => hf
  simp only [CPU.call_nc_d16, CPU.read_d16, hf1, Bool.not_true, Bool.not_false, Bool.false_eq_true, if_false]
  all_goals simp only [Option.some.injEq, CPU.mk.injEq, true_and, and_true]
  all_goals omega

theorem step_untaken_cc (s : CPU) (hop : s.mmu.read s.pc = 0xcc) (hf : s.f_z = false) :
    s.step = some { s with pc := (s.pc + 3) % 65536 } := by
  simp only [CPU.step, CPU.read_d8, hop]
  rw [exec_xcc]
  have hf1 : ∀ p : Nat, CPU.f_z { s with pc := p } = false := fun p => hf
  simp only [CPU.call_z_d16, CPU.read_d16, hf1, Bool.not_true, Bool.not_false, Bool.false_eq_true, if_false]
  all_goals simp only [Option.some.injEq, CPU.mk.injEq, true_and, and_true]
  all_goals omega

theorem step_untaken_dc (s : CPU) (hop : s.mmu.read s.pc = 0xdc) (hf : s.f_c = false) :
    s.step = some { s with pc := (s.pc + 3) % 65536 } := by
  simp only [CPU.step, CPU.read_d8, hop]
  rw [exec_xdc]
  have hf1 : ∀ p : Nat, CPU.f_c { s with pc := p } = false := fun p => hf
  simp only [CPU.call_c_d16, CPU.read_d16, hf1, Bool.not_true, Bool.not_false, Bool.false_eq_true, if_false]
  all_goals simp only [Option.some.injEq, CPU.mk.injEq, true_and, and_true]
  all_goals omega

theorem step_untaken_20 (s : CPU) (hop : s.mmu.read s.pc = 0x20) (hf : s.f_z = true) :
    s.step = some { s with pc := (s.pc + 2) % 65536 } := by
  simp only [CPU.step, CPU.read_d8, hop]
  rw [exec_x20]
  have hf1 : ∀ p : Nat, CPU.f_z { s with pc := p } = true := fun p => hf
  simp only [CPU.jr_nz_d8, CPU.read_d8, hf1, Bool.not_true, Bool.not_false, Bool.false_eq_true, if_false]
  all_goals simp only [Option.some.injEq, CPU.mk.injEq, true_and, and_true]
  all_goals omega

theorem step_untaken_30 (s : CPU) (hop : s.mmu.read s.pc = 0x30) (hf : s.f_c = true) :
    s.step = some { s with pc := (s.pc + 2) % 65536 } := by
  simp only [CPU.step, CPU.read_d8, hop]
  rw [exec_x30]
  have hf1 : ∀ p : Nat, CPU.f_c { s with pc := p } = true := fun p => hf
  simp only [CPU.jr_nc_d8, CPU.read_d8, hf1, Bool.not_true, Bool.not_false, Bool.false_eq_true, if_false]
  all_goals simp only [Option.some.injEq, CPU.mk.injEq, true_and, and_true]
  all_goals omega

theorem step_untaken_28 (s : CPU) (hop : s.mmu.read s.pc = 0x28) (hf : s.f_z = false) :
    s.step = some { s with pc := (s.pc + 2) % 65536 } := by
  simp only [CPU.step, CPU.read_d8, hop]
  rw [exec_x28]
  have hf1 : ∀ p : Nat, CPU.f_z { s with pc := p } = false := fun p => hf
  simp only [CPU.jr_z_d8, CPU.read_d8, hf1, Bool.not_true, Bool.not_false, Bool.false_eq_true, if_false]
  all_goals simp only [Option.some.injEq, CPU.mk.injEq, true_and, and_true]
  all_goals omega

theorem step_untaken_38 (s : CPU) (hop : s.mmu.read s.pc = 0x38) (hf : s.f_c = false) :
    s.step = some { s with pc := (s.pc + 2) % 65536 } := by
  simp only [CPU.step, CPU.read_d8, hop]
  rw [exec_x38]
  have hf1 : ∀ p : Nat, CPU.f_c { s with pc := p } = false := fun p => hf
  simp only [CPU.jr_c_d8, CPU.read_d8, hf1, Bool.not_true, Bool.not_false, Bool.false_eq_true, if_false]
  all_goals simp only [Option.some.injEq, CPU.mk.injEq, true_and, and_true]
  all_goals omega

theorem step_untaken_c0 (s : CPU) (hop : s.mmu.read s.pc = 0xc0) (hf : s.f_z = true) :
    s.step = some { s with pc := (s.pc + 1) % 65536 } := by
  simp only [CPU.step, CPU.read_d8, hop]
  rw [exec_xc0]
  have hf1 : ∀ p : Nat, CPU.f_z { s with pc := p } = true := fun p => hf
  simp only [CPU.ret_nz, CPU.read_d8, hf1, Bool.not_true, Bool.not_false, Bool.false_eq_true, if_false]

theorem step_untaken_d0 (s : CPU) (hop : s.mmu.read s.pc = 0xd0) (hf : s.f_c = true) :
    s.step = some { s with pc := (s.pc + 1) % 65536 } := by
  simp only [CPU.step, CPU.read_d8, hop]
  rw [exec_xd0]
  have hf1 : ∀ p : Nat, CPU.f_c { s with pc := p } = true := fun p => hf
  simp only [CPU.ret_nc, CPU.read_d8, hf1, Bool.not_true, Bool.not_false, Bool.false_eq_true, if_false]

theorem step_untaken_c8 (s : CPU) (hop : s.mmu.read s.pc = 0xc8) (hf : s.f_z = false) :
    s.step = some { s with pc := (s.pc + 1) % 65536 } := by
  simp only [CPU.step, CPU.read_d8, hop]
  rw [exec_xc8]
  have hf1 : ∀ p : Nat, CPU.f_z { s with pc := p } = false := fun p => hf
  simp only [CPU.ret_z, CPU.read_d8, hf1, Bool.not_true, Bool.not_false, Bool.false_eq_true, if_false]

theorem step_untaken_d8 (s : CPU) (hop : s.mmu.read s.pc = 0xd8) (hf : s.f_c = false) :
    s.step = some { s with pc := (s.pc + 1) % 65536 } := by
  simp only [CPU.step, CPU.read_d8, hop]
  rw [exec_xd8]
  have hf1 : ∀ p : Nat, CPU.f_c { s with pc := p } = false := fun p => hf
  simp only [CPU.ret_c, CPU.read_d8, hf1, Bool.not_true, Bool.not_false, Bool.false_eq_true, if_false]

theorem step_taken_c2 (s : CPU) (hop : s.mmu.read s.pc = 0xc2) (hf : s.f_z = false) :
    s.step = some { s with pc := s.mmu.read16 ((s.pc + 1) % 65536) } := by
  simp only [CPU.step, CPU.read_d8, hop]
  rw [exec_xc2]
  have hf1 : ∀ p : Nat, CPU.f_z { s with pc := p } = false := fun p => hf
  simp only [CPU.jp_nz_d8, CPU.read_d16, CPU._jp, hf1, Bool.not_false, if_true]

theorem exec_x76 (s : CPU) : s.exec 0x76 = none := by
  simp [CPU.exec]

/-- The spec's description of the DAA correction (spec.md §4.2), stated as a
function of the incoming accumulator and N/H/C flags; returns the corrected
accumulator and the resulting carry flag. -/
def daaSpec (a : Nat) (n h c : Bool) : Nat × Bool :=
  if !n then
    let a1 := if c || decide (a > 0x99) then (a + 0x60) % 256 else a
    let a2 := if h || decide (a &&& 0x0f > 0x09) then (a1 + 0x06) % 256 else a1
    (a2, c || decide (a > 0x99))
  else
    let a1 := if c then (a + 256 - 0x60) % 256 else a
    let a2 := if h then (a1 + 256 - 0x06) % 256 else a1
    (a2, c)

theorem daa_matches_spec (s : CPU) :
    s.daa.a = (daaSpec s.a s.f_n s.f_h s.f_c).1 ∧
    s.daa.f_c = (daaSpec s.a s.f_n s.f_h s.f_c).2 ∧
    (s.daa.f_z = true ↔ s.daa.a = 0) ∧
    s.daa.f_h = false ∧
    s.daa.f_n = s.f_n := by
  have hnib : ∀ x : Nat, ((x + 0x60) % 256) &&& 0x0f = x &&& 0x0f := by
    intro x
    rw [and15_eq_mod, and15_eq_mod]
    omega
  simp only [CPU.daa, daaSpec]
  cases hn : s.f_n <;> cases hc : s.f_c <;> cases hh : s.f_h <;>
    simp only [Bool.not_true, Bool.not_false, Bool.false_or, Bool.true_or, if_true, if_false,
      Bool.false_eq_true, Bool.true_eq_false, hnib,
      f_z_set_f_z, f_z_set_f_h, f_z_set_f_c, f_n_set_f_z, f_n_set_f_h, f_n_set_f_c,
      f_h_set_f_z, f_h_set_f_h, f_h_set_f_c, f_c_set_f_z, f_c_set_f_h, f_c_set_f_c,
      a_set_f_z, a_set_f_h, a_set_f_c,
      f_z_upd_a, f_n_upd_a, f_h_upd_a, f_c_upd_a, a_upd_a,
      hn, hc, hh, beq_iff_eq, decide_eq_true_eq] <;>
    first
      | (split_ifs <;>
          simp only [f_z_set_f_z, f_z_set_f_h, f_z_set_f_c, f_n_set_f_z, f_n_set_f_h,
            f_n_set_f_c, f_h_set_f_z, f_h_set_f_h, f_h_set_f_c, f_c_set_f_z, f_c_set_f_h,
            f_c_set_f_c, a_set_f_z, a_set_f_h, a_set_f_c,
            f_z_upd_a, f_n_upd_a, f_h_upd_a, f_c_upd_a, a_upd_a,
            hn, hc, hh, beq_iff_eq, decide_eq_true_eq] <;>
          first
            | rfl
            | omega
            | simp_all [f_z_set_f_c, f_n_set_f_c, f_h_set_f_c, f_c_set_f_c])
      | rfl
      | omega
      | simp_all [f_z_set_f_c, f_n_set_f_c, f_h_set_f_c, f_c_set_f_c]

/-! ### Claim theorems -/

/-- C1: starting from the initial CPU state (all registers zero, PC = 0x0100),
the low nibble of the flag register F is 0 after every dispatcher step, and
every dispatcher step preserves the predicate `F &&& 0x0F = 0`. -/
theorem flag_register_low_nibble_invariant :
    (∀ (s s' : CPU), s.step = some s' → FlagInv s → FlagInv s') ∧
    (∀ (m : MMU) (n : Nat) (s' : CPU), CPU.stepN n (CPU.new m) = some s' → FlagInv s') :=
  ⟨fun s s' hs h => step_preserves s s' hs h,
   fun m n s' hs => stepN_preserves n _ s' hs (by show (0 : Nat) &&& 15 = 0; decide)⟩

/-- Witness for C1: a concrete NOP step from a concrete state keeps the
invariant. -/
theorem flag_register_low_nibble_invariant_witness :
    ({ CPU.new zmmu with pc := 0xc000 } : CPU).step =
        some { CPU.new zmmu with pc := 0xc001 } ∧
      FlagInv ({ CPU.new zmmu with pc := 0xc001 } : CPU) :=
  ⟨by rfl,
   flag_register_low_nibble_invariant.1 { CPU.new zmmu with pc := 0xc000 }
     { CPU.new zmmu with pc := 0xc001 } (by rfl) (by unfold FlagInv; decide)⟩

/-- C2: the 8-bit ADD primitive stores `(a + b) mod 256` in the accumulator,
sets Carry iff `a + b > 255`, Half-carry iff `(a &&& 0xF) + (b &&& 0xF) > 15`,
Zero iff the 8-bit result is 0, and clears Subtract. -/
theorem add8_flag_semantics (s : CPU) (v : Nat) :
    (s._add v).a = (s.a + v) % 256 ∧
    ((s._add v).f_c = true ↔ 255 < s.a + v) ∧
    ((s._add v).f_h = true ↔ 15 < (s.a &&& 0xf) + (v &&& 0xf)) ∧
    ((s._add v).f_z = true ↔ (s.a + v) % 256 = 0) ∧
    (s._add v).f_n = false := by
  refine ⟨?_, ?_, ?_, ?_, ?_⟩ <;>
    simp only [CPU._add, f_c_set_f_c, f_c_set_f_h, f_c_set_f_n, f_c_set_f_z,
      f_h_set_f_c, f_h_set_f_h, f_h_set_f_n, f_h_set_f_z,
      f_n_set_f_c, f_n_set_f_h, f_n_set_f_n, f_n_set_f_z,
      f_z_set_f_c, f_z_set_f_h, f_z_set_f_n, f_z_set_f_z,
      a_set_f_c, a_set_f_h, a_set_f_n, a_set_f_z,
      decide_eq_true_eq, beq_iff_eq]

/-- C3: the 8-bit SUB primitive stores `(a - b) mod 256` in the accumulator,
sets Carry iff `a < b`, Half-carry iff `(a &&& 0xF) < (b &&& 0xF)`, Zero iff
`a = b`, and sets Subtract. -/
theorem sub8_flag_semantics (s : CPU) (v : Nat) (ha : s.a < 256) (hv : v < 256) :
    ((s._sub v).a : Int) = ((s.a : Int) - (v : Int)) % 256 ∧
    ((s._sub v).f_c = true ↔ s.a < v) ∧
    ((s._sub v).f_h = true ↔ (s.a &&& 0xf) < (v &&& 0xf)) ∧
    ((s._sub v).f_z = true ↔ s.a = v) ∧
    (s._sub v).f_n = true := by
  refine ⟨?_, ?_, ?_, ?_, ?_⟩ <;>
    simp only [CPU._sub, f_c_set_f_c, f_c_set_f_h, f_c_set_f_n, f_c_set_f_z,
      f_h_set_f_c, f_h_set_f_h, f_h_set_f_n, f_h_set_f_z,
      f_n_set_f_c, f_n_set_f_h, f_n_set_f_n, f_n_set_f_z,
      f_z_set_f_c, f_z_set_f_h, f_z_set_f_n, f_z_set_f_z,
      a_set_f_c, a_set_f_h, a_set_f_n, a_set_f_z,
      decide_eq_true_eq, beq_iff_eq]
  · push_cast
    omega
  · omega

/-- The concrete state used by the C3 witness. -/
def wcpu3 : CPU := { CPU.new zmmu with a := 200 }

/-- Witness for C3 at a = 200, b = 201. -/
theorem sub8_flag_semantics_witness :
    wcpu3.a < 256 ∧ (201 : Nat) < 256 ∧
      ((wcpu3._sub 201).f_c = true ↔ wcpu3.a < 201) :=
  ⟨by decide, by decide, (sub8_flag_semantics wcpu3 201 (by decide) (by decide)).2.1⟩

/-- Counterexample for C4 as stated: the boot-image region is read-only, so
`write16` at address 0x0000 is discarded and `read16` does not return the
written value. -/
theorem write16_read16_boot_counterexample :
    ¬ ((zmmu.write16 0x0000 0x1234).read16 0x0000 = 0x1234) := by decide

/-- C4 (amended): the write16/read16 round trip holds for every address whose
two bytes both fall in a writable region (working RAM 0xC000-0xDFFE or high
RAM 0xFF80-0xFFFD) and every 16-bit value. -/
theorem write16_read16_roundtrip_writable (m : MMU) (addr v : Nat) (hv : v < 65536)
    (h : (0xc000 ≤ addr ∧ addr ≤ 0xdffe) ∨ (0xff80 ≤ addr ∧ addr ≤ 0xfffd)) :
    (m.write16 addr v).read16 addr = v :=
  write16_read16_writable m addr v hv h

/-- Witness for C4 at address 0xC100, value 0x1234. -/
theorem write16_read16_roundtrip_witness :
    (0x1234 : Nat) < 65536 ∧
      ((0xc000 ≤ (0xc100 : Nat) ∧ (0xc100 : Nat) ≤ 0xdffe) ∨
        (0xff80 ≤ (0xc100 : Nat) ∧ (0xc100 : Nat) ≤ 0xfffd)) ∧
      (zmmu.write16 0xc100 0x1234).read16 0xc100 = 0x1234 :=
  ⟨by decide, by decide,
   write16_read16_roundtrip_writable zmmu 0xc100 0x1234 (by decide) (by decide)⟩

/-- The concrete state used by the C5 counterexample: SP = 2 makes the push
target the read-only boot region, so the pushed pair is lost. -/
def cex5 : CPU := { CPU.new zmmu with sp := 2, b := 0x12, c := 0x34 }

/-- Counterexample for C5 as stated ("for every CPU state"): with SP = 2 the
pushed value lands in the read-only boot region and POP restores boot-ROM
bytes instead of BC. -/
theorem push_pop_unbacked_stack_counterexample :
    ¬ (cex5.push_bc.pop_bc.bc = cex5.bc) := by decide

/-- C5 (amended): when the two stack bytes at SP-2 fall in a writable region
and the registers are in range, push followed by pop of the same pair leaves
SP and the pair unchanged; for AF the restored value is the pushed AF with the
low nibble of F forced to 0. -/
theorem push_pop_roundtrip_writable_stack (s : CPU) (hsp : s.sp < 65536)
    (ha : s.a < 256) (hf : s.f < 256) (hb : s.b < 256) (hc : s.c < 256)
    (hd : s.d < 256) (he : s.e < 256) (hh : s.h < 256) (hl : s.l < 256)
    (hT : (0xc000 ≤ (s.sp + 65536 - 2) % 65536 ∧ (s.sp + 65536 - 2) % 65536 ≤ 0xdffe) ∨
          (0xff80 ≤ (s.sp + 65536 - 2) % 65536 ∧ (s.sp + 65536 - 2) % 65536 ≤ 0xfffd)) :
    (s.push_bc.pop_bc.sp = s.sp ∧ s.push_bc.pop_bc.bc = s.bc) ∧
    (s.push_de.pop_de.sp = s.sp ∧ s.push_de.pop_de.de = s.de) ∧
    (s.push_hl.pop_hl.sp = s.sp ∧ s.push_hl.pop_hl.hl = s.hl) ∧
    (s.push_af.pop_af.sp = s.sp ∧ s.push_af.pop_af.af = s.af &&& 0xfff0) := by
  refine ⟨⟨?_, ?_⟩, ⟨?_, ?_⟩, ⟨?_, ?_⟩, ⟨?_, ?_⟩⟩
  · simp only [CPU.push_bc, CPU.pop_bc, CPU.set_bc]
    omega
  · simp only [CPU.push_bc, CPU.pop_bc, CPU.set_bc, CPU.bc]
    rw [write16_read16_writable _ _ _ (pair_lt hb hc) hT]
    exact bytes_recompose _ (pair_lt hb hc)
  · simp only [CPU.push_de, CPU.pop_de, CPU.set_de]
    omega
  · simp only [CPU.push_de, CPU.pop_de, CPU.set_de, CPU.de]
    rw [write16_read16_writable _ _ _ (pair_lt hd he) hT]
    exact bytes_recompose _ (pair_lt hd he)
  · simp only [CPU.push_hl, CPU.pop_hl, CPU.set_hl]
    omega
  · simp only [CPU.push_hl, CPU.pop_hl, CPU.set_hl, CPU.hl]
    rw [write16_read16_writable _ _ _ (pair_lt hh hl) hT]
    exact bytes_recompose _ (pair_lt hh hl)
  · simp only [CPU.push_af, CPU.pop_af, CPU.set_af]
    omega
  · simp only [CPU.push_af, CPU.pop_af, CPU.set_af, CPU.af]
    rw [write16_read16_writable _ _ _ (pair_lt ha hf) hT]
    exact bytes_recompose _ (Nat.lt_of_le_of_lt Nat.and_le_left (pair_lt ha hf))

/-- The concrete state used by the C5 witness: the stack points into RAM. -/
def wcpu5 : CPU := { CPU.new zmmu with sp := 0xd002, b := 0x12, c := 0x34 }

/-- Witness for C5 with SP = 0xD002 and BC = 0x1234. -/
theorem push_pop_roundtrip_witness :
    wcpu5.sp < 65536 ∧
      ((0xc000 ≤ (wcpu5.sp + 65536 - 2) % 65536 ∧ (wcpu5.sp + 65536 - 2) % 65536 ≤ 0xdffe) ∨
        (0xff80 ≤ (wcpu5.sp + 65536 - 2) % 65536 ∧ (wcpu5.sp + 65536 - 2) % 65536 ≤ 0xfffd)) ∧
      wcpu5.push_bc.pop_bc.sp = wcpu5.sp ∧ wcpu5.push_bc.pop_bc.bc = wcpu5.bc :=
  ⟨by decide, by decide,
   (push_pop_roundtrip_writable_stack wcpu5 (by decide) (by decide) (by decide) (by decide)
      (by decide) (by decide) (by decide) (by decide) (by decide) (by decide)).1⟩

/-- C6: every flag-conditional jump/call/return consumes its encoded operand
bytes whether or not the condition holds - a non-taken JP/CALL advances PC by
3, a non-taken JR by 2, a non-taken RET by 1, leaving everything else
unchanged - and the branch side effect happens only when the condition holds
(shown for JP NZ taken). -/
theorem conditional_flow_operand_consumption :
    (∀ s : CPU, s.mmu.read s.pc = 0xc2 → s.f_z = true →
        s.step = some { s with pc := (s.pc + 3) % 65536 }) ∧
    (∀ s : CPU, s.mmu.read s.pc = 0xd2 → s.f_c = true →
        s.step = some { s with pc := (s.pc + 3) % 65536 }) ∧
    (∀ s : CPU, s.mmu.read s.pc = 0xca → s.f_z = false →
        s.step = some { s with pc := (s.pc + 3) % 65536 }) ∧
    (∀ s : CPU, s.mmu.read s.pc = 0xda → s.f_c = false →
        s.step = some { s with pc := (s.pc + 3) % 65536 }) ∧
    (∀ s : CPU, s.mmu.read s.pc = 0xc4 → s.f_z = true →
        s.step = some { s with pc := (s.pc + 3) % 65536 }) ∧
    (∀ s : CPU, s.mmu.read s.pc = 0xd4 → s.f_c = true →
        s.step = some { s with pc := (s.pc + 3) % 65536 }) ∧
    (∀ s : CPU, s.mmu.read s.pc = 0xcc → s.f_z = false →
        s.step = some { s with pc := (s.pc + 3) % 65536 }) ∧
    (∀ s : CPU, s.mmu.read s.pc = 0xdc → s.f_c = false →
        s.step = some { s with pc := (s.pc + 3) % 65536 }) ∧
    (∀ s : CPU, s.mmu.read s.pc = 0x20 → s.f_z = true →
        s.step = some { s with pc := (s.pc + 2) % 65536 }) ∧
    (∀ s : CPU, s.mmu.read s.pc = 0x30 → s.f_c = true →
        s.step = some { s with pc := (s.pc + 2) % 65536 }) ∧
    (∀ s : CPU, s.mmu.read s.pc = 0x28 → s.f_z = false →
        s.step = some { s with pc := (s.pc + 2) % 65536 }) ∧
    (∀ s : CPU, s.mmu.read s.pc = 0x38 → s.f_c = false →
        s.step = some { s with pc := (s.pc + 2) % 65536 }) ∧
    (∀ s : CPU, s.mmu.read s.pc = 0xc0 → s.f_z = true →
        s.step = some { s with pc := (s.pc + 1) % 65536 }) ∧
    (∀ s : CPU, s.mmu.read s.pc = 0xd0 → s.f_c = true →
        s.step = some { s with pc := (s.pc + 1) % 65536 }) ∧
    (∀ s : CPU, s.mmu.read s.pc = 0xc8 → s.f_z = false →
        s.step = some { s with pc := (s.pc + 1) % 65536 }) ∧
    (∀ s : CPU, s.mmu.read s.pc = 0xd8 → s.f_c = false →
        s.step = some { s with pc := (s.pc + 1) % 65536 }) ∧
    (∀ s : CPU, s.mmu.read s.pc = 0xc2 → s.f_z = false →
        s.step = some { s with pc := s.mmu.read16 ((s.pc + 1) % 65536) }) := by
  exact ⟨fun s h1 h2 => step_untaken_c2 s h1 h2, fun s h1 h2 => step_untaken_d2 s h1 h2, fun s h1 h2 => step_untaken_ca s h1 h2, fun s h1 h2 => step_untaken_da s h1 h2, fun s h1 h2 => step_untaken_c4 s h1 h2, fun s h1 h2 => step_untaken_d4 s h1 h2, fun s h1 h2 => step_untaken_cc s h1 h2, fun s h1 h2 => step_untaken_dc s h1 h2, fun s h1 h2 => step_untaken_20 s h1 h2, fun s h1 h2 => step_untaken_30 s h1 h2, fun s h1 h2 => step_untaken_28 s h1 h2, fun s h1 h2 => step_untaken_38 s h1 h2, fun s h1 h2 => step_untaken_c0 s h1 h2, fun s h1 h2 => step_untaken_d0 s h1 h2, fun s h1 h2 => step_untaken_c8 s h1 h2, fun s h1 h2 => step_untaken_d8 s h1 h2, fun s h1 h2 => step_taken_c2 s h1 h2⟩

/-- An MMU whose RAM reads all return 0xC2. -/
def wc6mmu : MMU := ⟨fun _ => 0, fun _ => 0xc2, fun _ => 0⟩

/-- The concrete state used by the C6 witness: Z set, opcode 0xC2 at PC. -/
def wc6 : CPU := { CPU.new wc6mmu with pc := 0xc000, f := 0x80 }

/-- Witness for C6: a concrete non-taken JP NZ advances PC by 3. -/
theorem conditional_flow_operand_consumption_witness :
    wc6.mmu.read wc6.pc = 0xc2 ∧ wc6.f_z = true ∧
      wc6.step = some { wc6 with pc := (wc6.pc + 3) % 65536 } :=
  ⟨by decide, by decide,
   conditional_flow_operand_consumption.1 wc6 (by decide) (by decide)⟩

/-- The concrete states used by the C7 vector conjuncts. -/
def wdaa1 : CPU := { CPU.new zmmu with a := 0x45 }

/-- Second DAA vector state: A = 0x9A. -/
def wdaa2 : CPU := { CPU.new zmmu with a := 0x9a }

/-- C7: DAA applies the BCD correction exactly as the spec describes
(`daaSpec`), afterwards Z reflects the new A, H is cleared and N is
preserved; the two known vectors A=0x45 (unchanged, Z=0, C=0) and A=0x9A
(corrected to 0x00 with C=1) follow. -/
theorem daa_bcd_correction :
    (∀ s : CPU,
      s.daa.a = (daaSpec s.a s.f_n s.f_h s.f_c).1 ∧
      s.daa.f_c = (daaSpec s.a s.f_n s.f_h s.f_c).2 ∧
      (s.daa.f_z = true ↔ s.daa.a = 0) ∧
      s.daa.f_h = false ∧
      s.daa.f_n = s.f_n) ∧
    (wdaa1.daa.a = 0x45 ∧ wdaa1.daa.f_z = false ∧ wdaa1.daa.f_c = false) ∧
    (wdaa2.daa.a = 0x00 ∧ wdaa2.daa.f_z = true ∧ wdaa2.daa.f_c = true) :=
  ⟨fun s => daa_matches_spec s, ⟨by decide, by decide, by decide⟩,
   ⟨by decide, by decide, by decide⟩⟩

/-- Counterexample for C8 as stated: `set_af` itself does not mask the low
nibble - writing 0x0001 to AF leaves F = 0x01, not 0x0001 &&& 0xF0 = 0. -/
theorem set_af_no_masking_counterexample :
    ((CPU.new zmmu).set_af 0x0001).f ≠ 0x0001 &&& 0xf0 := by decide

/-- C8 (amended): `set_af` stores `v &&& 0xFF` into F without masking the low
nibble; the dispatcher's only AF-pair write, POP AF, masks the popped word
first, so after `pop_af` F equals `read16(SP) &&& 0xF0`. -/
theorem af_write_low_nibble_masking (s : CPU) (v : Nat) :
    ((s.set_af v).f = v &&& 0xff) ∧ (s.pop_af.f = s.mmu.read16 s.sp &&& 0xf0) := by
  refine ⟨rfl, ?_⟩
  simp only [CPU.pop_af, CPU.set_af]
  rw [Nat.and_assoc, and_fff0_255]

/-- C9: the secondary (0xCB-prefixed) decoder matches every opcode byte
0x00-0xFF; its fatal unimplemented branch is unreachable, so the 0xCB prefix
never aborts. -/
theorem secondary_dispatch_total :
    (∀ (s : CPU) (op : Nat), op < 256 → (s.prefixed_op op).isSome = true) ∧
    (∀ s : CPU, s.mmu.read s.pc < 256 → (s.prefixed).isSome = true) := by
  have h1 : ∀ (s : CPU) (op : Nat), op < 256 → (s.prefixed_op op).isSome = true := by
    intro s op hop
    simp only [CPU.prefixed_op]
    repeat' split
    all_goals first | rfl | (exfalso; omega)
  exact ⟨h1, fun s h => h1 _ _ h⟩

/-- Witness for C9 on a concrete state. -/
theorem secondary_dispatch_total_witness :
    (CPU.new zmmu).mmu.read (CPU.new zmmu).pc < 256 ∧
      ((CPU.new zmmu).prefixed).isSome = true :=
  ⟨by decide, secondary_dispatch_total.2 (CPU.new zmmu) (by decide)⟩

/-- C10: primary opcode 0x76 (HALT's slot) has no entry in the primary table -
it is excluded from the LD r8,r8 ranges - so a dispatcher step that fetches
0x76 hits the fatal unimplemented-opcode branch. -/
theorem opcode_76_unimplemented (s : CPU) (h : s.mmu.read s.pc = 0x76) :
    s.step = none := by
  simp only [CPU.step, CPU.read_d8, h]
  exact exec_x76 _

/-- An MMU whose RAM reads all return 0x76. -/
def w76mmu : MMU := ⟨fun _ => 0, fun _ => 0x76, fun _ => 0⟩

/-- The concrete state used by the C10 witness: RAM filled with 0x76. -/
def w76 : CPU := { CPU.new w76mmu with pc := 0xc000 }

/-- Witness for C10. -/
theorem opcode_76_unimplemented_witness :
    w76.mmu.read w76.pc = 0x76 ∧ w76.step = none :=
  ⟨by decide, opcode_76_unimplemented w76 (by decide)⟩

end RGB
